import Mathlib

/-
  Verification of the resource-orchestration engine of the eks-cluster
  repository (Go).  The Go code is shallowly embedded: every adapter is a
  pure Lean function over an explicit provider oracle (a function giving the
  outcome of each AWS call), stateful orchestration is explicit state
  passing, fallible code returns Option/Except, and a Go panic is a
  distinguished result constructor.
-/

set_option maxRecDepth 4096

/-- Response of the cloud provider to a single delete/detach call.
    Mirrors the error taxonomy of the Go code: success, the NotFound error
    class (for EC2 a distinguished error code string, for IAM/EKS a
    distinguished exception type), or any other API error with a message. -/
inductive Resp where
  | ok : Resp
  | notFound : Resp
  | apiErr (msg : String) : Resp
deriving DecidableEq, Repr

/-- Outcome of a fallible Go call that returns a value or an error,
    as used for create-call oracles. -/
abbrev CallResult (α : Type) := Except String α

/-! ## Inventory model and persistence (pkg inventory file)

The `ResourceInventory` struct and its JSON (de)serialization, embedded from
the inventory source file (the variant that declares `MarshalInventory` and
`UnmarshalInventory`).  Go `encoding/json` is modelled at the JSON-document
level: `MarshalInventory` produces the JSON document that
`json.MarshalIndent` renders (every field present, zero values included,
since no field carries `omitempty`), and `UnmarshalInventory` consumes a
JSON document with Go unmarshalling semantics (a missing key leaves the
zero value, a key of the wrong JSON type is an error, unknown keys are
ignored). -/

/-- JSON documents, as produced and consumed by encoding/json for this
    struct shape (strings, arrays and objects suffice). -/
inductive Json where
  | str (s : String) : Json
  | arr (elems : List Json) : Json
  | obj (fields : List (String × Json)) : Json
deriving Repr

/-- RoleInventory contains the details for each role created. -/
structure RoleInventory where
  RoleName : String
  RoleARN : String
  RolePolicyARNs : List String
deriving DecidableEq, Repr

/-- ClusterInventory contains the details for the EKS cluster. -/
structure ClusterInventory where
  ClusterName : String
  ClusterARN : String
  OIDCProviderURL : String
deriving DecidableEq, Repr

/-- ResourceInventory contains a record of all resources created so they can
    be referenced and cleaned up.  Field for field the Go struct, in
    declaration order, with the json tag of each field kept as the key used
    by the serializer. -/
structure ResourceInventory where
  Region : String
  VPCID : String
  SubnetIDs : List String
  InternetGatewayID : String
  ElasticIPIDs : List String
  PrivateRouteTableIDs : List String
  PublicRouteTableID : String
  ClusterRole : RoleInventory
  WorkerRole : RoleInventory
  DNSManagementRole : RoleInventory
  DNS01ChallengeRole : RoleInventory
  StorageManagementRole : RoleInventory
  ClusterAutoscalingRole : RoleInventory
  PolicyARNs : List String
  Cluster : ClusterInventory
  NodeGroupNames : List String
  OIDCProviderARN : String
deriving DecidableEq, Repr

/-- Zero value of RoleInventory (Go zero value of the struct). -/
def RoleInventory.zero : RoleInventory := ⟨"", "", []⟩

/-- Zero value of ClusterInventory. -/
def ClusterInventory.zero : ClusterInventory := ⟨"", "", ""⟩

/-- Zero value of ResourceInventory: every field at its Go zero value. -/
def ResourceInventory.zero : ResourceInventory :=
  ⟨"", "", [], "", [], [], "", RoleInventory.zero, RoleInventory.zero,
   RoleInventory.zero, RoleInventory.zero, RoleInventory.zero,
   RoleInventory.zero, [], ClusterInventory.zero, [], ""⟩

/-- Serialization of a RoleInventory value (all three fields, no omission). -/
def marshalRole (r : RoleInventory) : Json :=
  .obj [("roleName", .str r.RoleName),
        ("roleARN", .str r.RoleARN),
        ("rolePolicyARNs", .arr (r.RolePolicyARNs.map Json.str))]

/-- Serialization of a ClusterInventory value. -/
def marshalCluster (c : ClusterInventory) : Json :=
  .obj [("clusterName", .str c.ClusterName),
        ("clusterARN", .str c.ClusterARN),
        ("oidcProviderURL", .str c.OIDCProviderURL)]

/-- MarshalInventory returns the JSON representation of a ResourceInventory
    object.  Every field serializes (none of the Go struct tags carries
    `omitempty`), so unpopulated fields appear with their zero values. -/
def MarshalInventory (inventory : ResourceInventory) : Json :=
  .obj [("region", .str inventory.Region),
        ("vpcID", .str inventory.VPCID),
        ("subnetIDs", .arr (inventory.SubnetIDs.map Json.str)),
        ("internetGatewayID", .str inventory.InternetGatewayID),
        ("elasticIPIDs", .arr (inventory.ElasticIPIDs.map Json.str)),
        ("privateRouteTableIDs", .arr (inventory.PrivateRouteTableIDs.map Json.str)),
        ("publicRouteTableID", .str inventory.PublicRouteTableID),
        ("clusterRole", marshalRole inventory.ClusterRole),
        ("workerRole", marshalRole inventory.WorkerRole),
        ("dnsManagementRole", marshalRole inventory.DNSManagementRole),
        ("dns01ChallengeRole", marshalRole inventory.DNS01ChallengeRole),
        ("storageManagementRole", marshalRole inventory.StorageManagementRole),
        ("clusterAutoscalingRole", marshalRole inventory.ClusterAutoscalingRole),
        ("policyARNs", .arr (inventory.PolicyARNs.map Json.str)),
        ("cluster", marshalCluster inventory.Cluster),
        ("nodeGroupNames", .arr (inventory.NodeGroupNames.map Json.str)),
        ("oidcProviderARN", .str inventory.OIDCProviderARN)]

/-- Decoding of a JSON value into a Go string. -/
def Json.asStr : Json → Except String String
  | .str s => .ok s
  | _ => .error "json: cannot unmarshal value into field of type string"

/-- Decoding of a list of JSON values into a Go string slice. -/
def strsFromJson : List Json → Except String (List String)
  | [] => .ok []
  | j :: rest => do
      let s ← j.asStr
      let t ← strsFromJson rest
      .ok (s :: t)

/-- Decoding of a string-valued field: a missing key leaves the Go zero
    value in place, per encoding/json semantics. -/
def jfieldStr (fields : List (String × Json)) (key : String) : Except String String :=
  match fields.lookup key with
  | none => .ok ""
  | some j => j.asStr

/-- Decoding of a string-slice-valued field. -/
def jfieldStrs (fields : List (String × Json)) (key : String) : Except String (List String) :=
  match fields.lookup key with
  | none => .ok []
  | some (.arr elems) => strsFromJson elems
  | some _ => .error "json: cannot unmarshal value into field of type []string"

/-- Decoding of an embedded RoleInventory field. -/
def jfieldRole (fields : List (String × Json)) (key : String) : Except String RoleInventory :=
  match fields.lookup key with
  | none => .ok RoleInventory.zero
  | some (.obj rf) => do
      let n ← jfieldStr rf "roleName"
      let a ← jfieldStr rf "roleARN"
      let p ← jfieldStrs rf "rolePolicyARNs"
      .ok ⟨n, a, p⟩
  | some _ => .error "json: cannot unmarshal value into field of type RoleInventory"

/-- Decoding of the embedded ClusterInventory field. -/
def jfieldCluster (fields : List (String × Json)) (key : String) : Except String ClusterInventory :=
  match fields.lookup key with
  | none => .ok ClusterInventory.zero
  | some (.obj cf) => do
      let n ← jfieldStr cf "clusterName"
      let a ← jfieldStr cf "clusterARN"
      let u ← jfieldStr cf "oidcProviderURL"
      .ok ⟨n, a, u⟩
  | some _ => .error "json: cannot unmarshal value into field of type ClusterInventory"

/-- UnmarshalInventory parses a JSON document into a ResourceInventory
    object, with Go semantics: each known key is decoded into its field, a
    missing key leaves the field at its zero value, unknown keys are
    ignored, and a value of the wrong JSON type is an error. -/
def UnmarshalInventory (doc : Json) : Except String ResourceInventory :=
  match doc with
  | .obj fields => do
      let region ← jfieldStr fields "region"
      let vpcID ← jfieldStr fields "vpcID"
      let subnetIDs ← jfieldStrs fields "subnetIDs"
      let igwID ← jfieldStr fields "internetGatewayID"
      let eipIDs ← jfieldStrs fields "elasticIPIDs"
      let privRTs ← jfieldStrs fields "privateRouteTableIDs"
      let pubRT ← jfieldStr fields "publicRouteTableID"
      let clusterRole ← jfieldRole fields "clusterRole"
      let workerRole ← jfieldRole fields "workerRole"
      let dnsRole ← jfieldRole fields "dnsManagementRole"
      let dns01Role ← jfieldRole fields "dns01ChallengeRole"
      let storageRole ← jfieldRole fields "storageManagementRole"
      let autoscalingRole ← jfieldRole fields "clusterAutoscalingRole"
      let policyARNs ← jfieldStrs fields "policyARNs"
      let cluster ← jfieldCluster fields "cluster"
      let nodeGroupNames ← jfieldStrs fields "nodeGroupNames"
      let oidcARN ← jfieldStr fields "oidcProviderARN"
      .ok ⟨region, vpcID, subnetIDs, igwID, eipIDs, privRTs, pubRT,
           clusterRole, workerRole, dnsRole, dns01Role, storageRole,
           autoscalingRole, policyARNs, cluster, nodeGroupNames, oidcARN⟩
  | _ => .error "json: cannot unmarshal value into ResourceInventory"

/-- Keys of the serialized form, used to state that no field is omitted. -/
def jsonKeys : Json → List String
  | .obj fields => fields.map Prod.fst
  | _ => []

theorem strsFromJson_map (xs : List String) :
    strsFromJson (xs.map Json.str) = .ok xs := by
  induction xs with
  | nil => rfl
  | cons x xs ih => simp [strsFromJson, Json.asStr, ih, Bind.bind, Except.bind]

theorem roundtrip_role (r : RoleInventory) :
    jfieldRole [("k", marshalRole r)] "k" = .ok r := by
  obtain ⟨n, a, p⟩ := r
  simp [jfieldRole, marshalRole, List.lookup, jfieldStr, jfieldStrs,
        Json.asStr, strsFromJson_map, Bind.bind, Except.bind]

theorem roundtrip_cluster (c : ClusterInventory) :
    jfieldCluster [("k", marshalCluster c)] "k" = .ok c := by
  obtain ⟨n, a, u⟩ := c
  simp [jfieldCluster, marshalCluster, List.lookup, jfieldStr,
        Json.asStr, Bind.bind, Except.bind]

/-- C4.  Inventory round-trip: for every ResourceInventory value, including
    partially populated ones whose unpopulated fields hold their zero
    values, serializing with MarshalInventory and parsing back with
    UnmarshalInventory yields a value equal in all fields to the original,
    and the serialized form carries all seventeen field keys (no field is
    ever omitted). -/
theorem inventory_roundtrip (inv : ResourceInventory) :
    UnmarshalInventory (MarshalInventory inv) = .ok inv ∧
    jsonKeys (MarshalInventory inv) =
      ["region", "vpcID", "subnetIDs", "internetGatewayID", "elasticIPIDs",
       "privateRouteTableIDs", "publicRouteTableID", "clusterRole",
       "workerRole", "dnsManagementRole", "dns01ChallengeRole",
       "storageManagementRole", "clusterAutoscalingRole", "policyARNs",
       "cluster", "nodeGroupNames", "oidcProviderARN"] := by
  obtain ⟨reg, vpc, subs, igw, eips, prts, purt, cr, wr, dnsr, dns01r,
          stor, autor, pols, clus, ngs, oidc⟩ := inv
  refine ⟨?_, rfl⟩
  simp [UnmarshalInventory, MarshalInventory, List.lookup,
        jfieldStr, jfieldStrs, jfieldRole, jfieldCluster, Json.asStr,
        strsFromJson_map, marshalRole, marshalCluster, Bind.bind, Except.bind]

/-! ## Configuration model (config.go)

Fields that carry data or steer control flow in the orchestrator.  The tag
map is a Go `map[string]string`, which may be nil: it is modelled as an
optional lookup function. -/

/-- AvailabilityZone contains configuration options for EKS cluster
    networking plus resource ID fields assigned during creation. -/
structure AvailabilityZone where
  Zone : String
  PrivateSubnetCIDR : String
  PrivateSubnetID : String
  PublicSubnetCIDR : String
  PublicSubnetID : String
  NATGatewayID : String
deriving DecidableEq, Repr

/-- Go map[string]string as a lookup function (maps are unordered). -/
def GoMap := String → Option String

/-- Assignment `m[k] = v` on a non-nil Go map. -/
def GoMap.set (m : GoMap) (k v : String) : GoMap :=
  fun x => if x = k then some v else m x

/-- Go map with no entries. -/
def GoMap.empty : GoMap := fun _ => none

/-- CreateMapTags creates tags in map[string]string format for AWS services
    that use that format.  The Go body executes `tags["Name"] = name` and
    returns the same map: on a nil map (`none`) that assignment panics,
    modelled as `none`; on a non-nil map the caller's map itself afterwards
    holds the Name key (mutation in place, modelled by returning the
    updated map, which in Go is the same map object). -/
def CreateMapTags (name : String) (tags : Option GoMap) : Option GoMap :=
  match tags with
  | none => none
  | some m => some (m.set "Name" name)

/-- DNSManagementServiceAccount: name and namespace of the Kubernetes
    service account that manages Route53 records. -/
structure DNSManagementServiceAccount where
  Name : String
  Namespace : String
deriving DecidableEq, Repr

/-- ClusterAutoscalingServiceAccount: name and namespace of the Kubernetes
    service account that manages autoscaling groups. -/
structure ClusterAutoscalingServiceAccount where
  Name : String
  Namespace : String
deriving DecidableEq, Repr

/-- StorageManagementServiceAccount: name and namespace of the Kubernetes
    service account that manages storage provisioning. -/
structure StorageManagementServiceAccount where
  Name : String
  Namespace : String
deriving DecidableEq, Repr

/-- ResourceConfig contains the configuration options for an EKS cluster
    (config.go), with the Go nil-ability of the tag map kept. -/
structure ResourceConfig where
  Name : String
  Region : String
  AWSAccountID : String
  KubernetesVersion : String
  ClusterCIDR : String
  AvailabilityZones : List AvailabilityZone
  InstanceTypes : List String
  InitialNodes : Int
  MinNodes : Int
  MaxNodes : Int
  DNSManagement : Bool
  DNSManagementServiceAccount : DNSManagementServiceAccount
  StorageManagementServiceAccount : StorageManagementServiceAccount
  ClusterAutoscaling : Bool
  ClusterAutoscalingServiceAccount : ClusterAutoscalingServiceAccount
  KeyPair : String
  Tags : Option GoMap

/-! ## Subnet adapter (subnet.go)

`CreateSubnets` loops over the availability zones; per zone it creates the
private subnet, then the public subnet, then modifies the public subnet
attribute.  The provider outcome of each call is supplied by an oracle
keyed by zone index.  The Go function returns `(*[]Subnet, *[]Subnet,
error)`; a nil slice pointer is `none`.  The `created` component is
instrumentation recording every subnet ID the provider successfully
created, in call order, so that statements can compare what exists in the
cloud against what the function returned. -/

/-- Provider oracle for one CreateSubnets run. -/
structure SubnetCallEnv where
  createPrivateSubnet : Nat → CallResult String
  createPublicSubnet : Nat → CallResult String
  modifySubnetAttribute : Nat → Option String

/-- Result of CreateSubnets as the Go function returns it, plus the
    instrumentation list of provider-created subnet IDs. -/
structure SubnetsResult where
  privateSubnets : Option (List String)
  publicSubnets : Option (List String)
  azsAfter : List AvailabilityZone
  created : List String
  err : Option String
deriving Repr

/-- Loop body of CreateSubnets.  Mirrors the three abort paths of the Go
    code: a private-subnet failure returns (nil, nil, err); a public-subnet
    failure returns (partial privates, nil, err); an attribute-modification
    failure returns (partial privates, partial publics, err). -/
def createSubnetsLoop (env : SubnetCallEnv) :
    Nat → List AvailabilityZone → List AvailabilityZone →
    List String → List String → List String → SubnetsResult
  | _, done, [], accPriv, accPub, created =>
      ⟨some accPriv, some accPub, done, created, none⟩
  | i, done, az :: rest, accPriv, accPub, created =>
      match env.createPrivateSubnet i with
      | .error e =>
          ⟨none, none, done ++ az :: rest, created,
           some ("failed to create private subnet: " ++ e)⟩
      | .ok pid =>
          let az := { az with PrivateSubnetID := pid }
          match env.createPublicSubnet i with
          | .error e =>
              ⟨some (accPriv ++ [pid]), none, done ++ az :: rest,
               created ++ [pid],
               some ("failed to create public subnet: " ++ e)⟩
          | .ok qid =>
              let az := { az with PublicSubnetID := qid }
              match env.modifySubnetAttribute i with
              | some e =>
                  ⟨some (accPriv ++ [pid]), some (accPub ++ [qid]),
                   done ++ az :: rest, created ++ [pid, qid],
                   some ("failed to modify subnet attribute for subnet with ID "
                         ++ qid ++ ": " ++ e)⟩
              | none =>
                  createSubnetsLoop env (i + 1) (done ++ [az]) rest
                    (accPriv ++ [pid]) (accPub ++ [qid]) (created ++ [pid, qid])

/-- CreateSubnets creates a public and a private subnet in each
    availability zone, assigning the provider IDs into the zone records. -/
def CreateSubnets (env : SubnetCallEnv) (availabilityZones : List AvailabilityZone) :
    SubnetsResult :=
  createSubnetsLoop env 0 [] availabilityZones [] [] []

/-! ## Elastic IP adapter (elastic_ips.go) -/

/-- Loop of CreateElasticIPs: one AllocateAddress call per public subnet;
    on failure the addresses allocated so far are still returned together
    with the error. -/
def createElasticIPsLoop (alloc : Nat → CallResult String) :
    Nat → List String → List String → List String × Option String
  | _, [], acc => (acc, none)
  | i, _ :: rest, acc =>
      match alloc i with
      | .error e => (acc, some ("failed to create elastic IP: " ++ e))
      | .ok id => createElasticIPsLoop alloc (i + 1) rest (acc ++ [id])

/-- CreateElasticIPs allocates one elastic IP address per public subnet. -/
def CreateElasticIPs (alloc : Nat → CallResult String) (publicSubnetIDs : List String) :
    List String × Option String :=
  createElasticIPsLoop alloc 0 publicSubnetIDs []

/-! ## NAT gateway adapter, create side (nat_gateway.go)

`CreateNATGateways` iterates the availability zones by index and reads
`elasticIPIDs[i]` with no bounds check: when the elastic IP list is shorter
than the zone list, the Go code panics with an index-out-of-range error at
the first missing index, before issuing the provider call for that zone.
The call log records each (public subnet ID, elastic IP ID) pair actually
sent to the provider. -/

/-- Outcome of a CreateNATGateways run. -/
inductive NatGatewaysOutcome where
  | ok : NatGatewaysOutcome
  | err (msg : String) : NatGatewaysOutcome
  | panicked : NatGatewaysOutcome
deriving DecidableEq, Repr

/-- Loop of CreateNATGateways: per zone, index the elastic IP list (panic
    when out of range) and issue one CreateNatGateway call. -/
def createNATGatewaysLoop (createNat : Nat → Option String) (elasticIPIDs : List String) :
    Nat → List AvailabilityZone → List (String × String) × NatGatewaysOutcome
  | _, [] => ([], .ok)
  | i, az :: rest =>
      match elasticIPIDs.get? i with
      | none => ([], .panicked)
      | some eip =>
          match createNat i with
          | some e =>
              ([(az.PublicSubnetID, eip)],
               .err ("failed to create NAT gateway in subnet with ID "
                     ++ az.PublicSubnetID ++ ": " ++ e))
          | none =>
              let (log, r) := createNATGatewaysLoop createNat elasticIPIDs (i + 1) rest
              ((az.PublicSubnetID, eip) :: log, r)

/-- CreateNATGateways creates a NAT gateway for each availability zone,
    keyed to the elastic IP at the same position. -/
def CreateNATGateways (createNat : Nat → Option String) (availabilityZones : List AvailabilityZone)
    (elasticIPIDs : List String) : List (String × String) × NatGatewaysOutcome :=
  createNATGatewaysLoop createNat elasticIPIDs 0 availabilityZones

/-! ## IAM constants (role.go) -/

def ClusterRoleName : String := "eks-cluster-role"
def WorkerRoleName : String := "eks-cluster-workler-role"
def DNSManagementRoleName : String := "eks-cluster-dns-management-role"
def ClusterPolicyARN : String := "arn:aws:iam::aws:policy/AmazonEKSClusterPolicy"
def WorkerNodePolicyARN : String := "arn:aws:iam::aws:policy/AmazonEKSWorkerNodePolicy"
def ContainerRegistryPolicyARN : String := "arn:aws:iam::aws:policy/AmazonEC2ContainerRegistryReadOnly"
def CNIPolicyARN : String := "arn:aws:iam::aws:policy/AmazonEKS_CNI_Policy"

/-- getWorkerPolicyARNs returns the IAM policy ARNs needed for clusters and
    node groups. -/
def getWorkerPolicyARNs : List String :=
  [WorkerNodePolicyARN, ContainerRegistryPolicyARN, CNIPolicyARN]

/-! ## Orchestrator, create side (resource.go CreateResourceStack)

The orchestrator is embedded over an environment that supplies, for each
adapter invocation, the value-and-error pair the Go adapter call returns
(matching each Go signature: a nil result pointer is `none`, and a partial
result may accompany an error).  Subnet, elastic IP and NAT gateway
creation are threaded through their full adapter embeddings above.  The
run produces the inventory as built so far, the ordered list of adapter
and wait invocations, and the outcome; dereferencing a nil pointer in the
Go code is the `panicked` outcome. -/

/-- Resource kinds in the order the orchestrator touches them; used as the
    entries of the invocation log for both creation and deletion. -/
inductive StepKind where
  | vpc
  | internetGateway
  | subnets
  | elasticIPs
  | natGateways
  | waitNatGatewaysCreated
  | routeTables
  | dnsPolicy
  | autoscalingPolicy
  | iamRoles
  | cluster
  | waitClusterCreated
  | nodeGroups
  | waitNodeGroupsCreated
  | oidcProvider
  | dnsRole
  | autoscalingRole
  | storageRole
  | storageAddon
  | policies
  | waitNodeGroupsDeleted
  | waitClusterDeleted
  | waitNatGatewaysDeleted
deriving DecidableEq, Repr

/-- Outcome of an orchestrator run. -/
inductive StackOutcome where
  | ok : StackOutcome
  | err (msg : String) : StackOutcome
  | panicked : StackOutcome
deriving DecidableEq, Repr

/-- Result of a CreateResourceStack run: the inventory at return time, the
    ordered invocation log, and the outcome. -/
structure StackResult where
  inventory : ResourceInventory
  log : List StepKind
  outcome : StackOutcome
deriving Repr

/-- IAM role as returned by the provider (types.Role): name and ARN, plus
    the permissions-boundary ARN pointer which the Go code dereferences for
    the autoscaling and storage roles. -/
structure Role where
  RoleName : String
  Arn : String
  PermissionsBoundaryArn : Option String
deriving DecidableEq, Repr

/-- IAM policy as returned by the provider (types.Policy): the ARN pointer
    (dereferenced by the orchestrator) and the policy name. -/
structure Policy where
  Arn : Option String
  PolicyName : String
deriving DecidableEq, Repr

/-- Environment of one CreateResourceStack run: the outcome of every
    provider-facing call, in the shape the Go adapters return them. -/
structure StackEnv where
  vpc : Option String × Option String
  internetGateway : Option String × Option String
  subnetCalls : SubnetCallEnv
  allocateAddress : Nat → CallResult String
  createNatGateway : Nat → Option String
  waitNatGatewaysCreated : Option String
  routeTables : List String × Option String × Option String
  dnsPolicy : Option Policy × Option String
  autoscalingPolicy : Option Policy × Option String
  roles : Option Role × Option Role × Option String
  cluster : Option (String × String) × Option String
  waitClusterCreated : String × Option String
  nodeGroups : Option (List String) × Option String
  waitNodeGroupsCreated : Option String
  oidcProvider : String × Option String
  dnsManagementRole : Option Role × Option String
  clusterAutoscalingRole : Option Role × Option String
  storageManagementRole : Option Role × Option String
  ebsStorageAddon : Option String × Option String

/-- CreateResourceStack creates all the resources for an EKS cluster,
    recording every identifier an adapter returns into the inventory before
    acting on the error, and aborting the forward sequence on the first
    error. -/
def CreateResourceStack (cfg : ResourceConfig) (env : StackEnv) : StackResult :=
  let inv : ResourceInventory := { ResourceInventory.zero with Region := cfg.Region }
  -- Tags: CreateEC2Tags and CreateIAMTags range over the tag map (ranging
  -- over a nil map is zero iterations); CreateMapTags assigns into the map
  -- and therefore panics when the config carries no tag map.
  match CreateMapTags cfg.Name cfg.Tags with
  | none => ⟨inv, [], .panicked⟩
  | some _mapTags =>
  -- VPC
  let (vpcOpt, vpcErr) := env.vpc
  let inv := match vpcOpt with
    | some id => { inv with VPCID := id }
    | none => inv
  let log := [StepKind.vpc]
  match vpcErr with
  | some e => ⟨inv, log, .err e⟩
  | none =>
  match vpcOpt with
  | none => ⟨inv, log, .panicked⟩
  | some _vpcID =>
  -- Internet Gateway
  let (igwOpt, igwErr) := env.internetGateway
  let inv := match igwOpt with
    | some id => { inv with InternetGatewayID := id }
    | none => inv
  let log := log ++ [StepKind.internetGateway]
  match igwErr with
  | some e => ⟨inv, log, .err e⟩
  | none =>
  match igwOpt with
  | none => ⟨inv, log, .panicked⟩
  | some _igwID =>
  -- Subnets
  let subnetsRes := CreateSubnets env.subnetCalls cfg.AvailabilityZones
  let privateSubnetIDs := match subnetsRes.privateSubnets with
    | some ids => ids
    | none => []
  let publicSubnetIDs := match subnetsRes.publicSubnets with
    | some ids => ids
    | none => []
  let allSubnetIDs := privateSubnetIDs ++ publicSubnetIDs
  let inv := { inv with SubnetIDs := allSubnetIDs }
  let log := log ++ [StepKind.subnets]
  match subnetsRes.err with
  | some e => ⟨inv, log, .err e⟩
  | none =>
  -- Elastic IPs
  let (elasticIPIDs, eipErr) := CreateElasticIPs env.allocateAddress publicSubnetIDs
  let inv := { inv with ElasticIPIDs := elasticIPIDs }
  let log := log ++ [StepKind.elasticIPs]
  match eipErr with
  | some e => ⟨inv, log, .err e⟩
  | none =>
  -- NAT Gateways (IDs are not returned on creation and are not recorded;
  -- cleanup later filters by VPC ID)
  let (_natCalls, natOut) := CreateNATGateways env.createNatGateway subnetsRes.azsAfter elasticIPIDs
  let log := log ++ [StepKind.natGateways]
  match natOut with
  | .panicked => ⟨inv, log, .panicked⟩
  | .err e => ⟨inv, log, .err e⟩
  | .ok =>
  let log := log ++ [StepKind.waitNatGatewaysCreated]
  match env.waitNatGatewaysCreated with
  | some e => ⟨inv, log, .err e⟩
  | none =>
  -- Route Tables: both returned pointers are always non-nil; the public
  -- route table ID pointer is dereferenced before the error check, so a
  -- run in which the public route table was not created panics there.
  let (privateRouteTableIDs, publicRouteTableID, rtErr) := env.routeTables
  let inv := { inv with PrivateRouteTableIDs := privateRouteTableIDs }
  let log := log ++ [StepKind.routeTables]
  match publicRouteTableID with
  | none => ⟨inv, log, .panicked⟩
  | some pubRT =>
  let inv := { inv with PublicRouteTableID := pubRT }
  match rtErr with
  | some e => ⟨inv, log, .err e⟩
  | none =>
  -- IAM Policy for DNS Management (optional)
  let dnsStep : ResourceInventory × List StepKind × Option String × Option StackOutcome :=
    if cfg.DNSManagement then
      let (polOpt, polErr) := env.dnsPolicy
      let log := log ++ [StepKind.dnsPolicy]
      match polOpt with
      | some pol =>
          match pol.Arn with
          | some arn =>
              let inv := { inv with PolicyARNs := inv.PolicyARNs ++ [arn] }
              match polErr with
              | some e => (inv, log, none, some (.err e))
              | none => (inv, log, some arn, none)
          | none => (inv, log, none, some .panicked)
      | none =>
          match polErr with
          | some e => (inv, log, none, some (.err e))
          | none => (inv, log, none, some .panicked)
    else (inv, log, none, none)
  match dnsStep with
  | (inv, log, _, some out) => ⟨inv, log, out⟩
  | (inv, log, dnsPolicyArn, none) =>
  -- IAM Policy for Cluster Autoscaling (optional)
  let autoStep : ResourceInventory × List StepKind × Option String × Option StackOutcome :=
    if cfg.ClusterAutoscaling then
      let (polOpt, polErr) := env.autoscalingPolicy
      let log := log ++ [StepKind.autoscalingPolicy]
      match polOpt with
      | some pol =>
          match pol.Arn with
          | some arn =>
              let inv := { inv with PolicyARNs := inv.PolicyARNs ++ [arn] }
              match polErr with
              | some e => (inv, log, none, some (.err e))
              | none => (inv, log, some arn, none)
          | none => (inv, log, none, some .panicked)
      | none =>
          match polErr with
          | some e => (inv, log, none, some (.err e))
          | none => (inv, log, none, some .panicked)
    else (inv, log, none, none)
  match autoStep with
  | (inv, log, _, some out) => ⟨inv, log, out⟩
  | (inv, log, autoscalingPolicyArn, none) =>
  -- IAM Roles
  let (clusterRoleOpt, workerRoleOpt, rolesErr) := env.roles
  let inv := match clusterRoleOpt with
    | some r => { inv with ClusterRole := ⟨r.RoleName, r.Arn, [ClusterPolicyARN]⟩ }
    | none => inv
  let inv := match workerRoleOpt with
    | some r => { inv with WorkerRole := ⟨r.RoleName, r.Arn, getWorkerPolicyARNs⟩ }
    | none => inv
  let log := log ++ [StepKind.iamRoles]
  match rolesErr with
  | some e => ⟨inv, log, .err e⟩
  | none =>
  match clusterRoleOpt with
  | none => ⟨inv, log, .panicked⟩
  | some _clusterRole =>
  match workerRoleOpt with
  | none => ⟨inv, log, .panicked⟩
  | some _workerRole =>
  -- EKS Cluster
  let (clusterOpt, clusterErr) := env.cluster
  let inv := match clusterOpt with
    | some c => { inv with Cluster := { inv.Cluster with ClusterName := c.1, ClusterARN := c.2 } }
    | none => inv
  let log := log ++ [StepKind.cluster]
  match clusterErr with
  | some e => ⟨inv, log, .err e⟩
  | none =>
  match clusterOpt with
  | none => ⟨inv, log, .panicked⟩
  | some _cl =>
  let (oidcIssuer, waitClErr) := env.waitClusterCreated
  let inv := if oidcIssuer ≠ "" then
      { inv with Cluster := { inv.Cluster with OIDCProviderURL := oidcIssuer } }
    else inv
  let log := log ++ [StepKind.waitClusterCreated]
  match waitClErr with
  | some e => ⟨inv, log, .err e⟩
  | none =>
  -- Node Groups
  let (nodeGroupsOpt, ngErr) := env.nodeGroups
  let inv := match nodeGroupsOpt with
    | some names => { inv with NodeGroupNames := names }
    | none => inv
  let log := log ++ [StepKind.nodeGroups]
  match ngErr with
  | some e => ⟨inv, log, .err e⟩
  | none =>
  let log := log ++ [StepKind.waitNodeGroupsCreated]
  match env.waitNodeGroupsCreated with
  | some e => ⟨inv, log, .err e⟩
  | none =>
  -- OIDC Provider
  let (oidcProviderARN, oidcErr) := env.oidcProvider
  let inv := if oidcProviderARN ≠ "" then { inv with OIDCProviderARN := oidcProviderARN } else inv
  let log := log ++ [StepKind.oidcProvider]
  match oidcErr with
  | some e => ⟨inv, log, .err e⟩
  | none =>
  -- IAM Role for DNS Management (optional)
  let dnsRoleStep : ResourceInventory × List StepKind × Option StackOutcome :=
    if cfg.DNSManagement then
      match dnsPolicyArn with
      | none => (inv, log, some (.err "no DNS policy ARN to attach to DNS management role"))
      | some arn =>
          let (roleOpt, roleErr) := env.dnsManagementRole
          let log := log ++ [StepKind.dnsRole]
          let inv := match roleOpt with
            | some r => { inv with DNSManagementRole := ⟨r.RoleName, r.Arn, [arn]⟩ }
            | none => inv
          match roleErr with
          | some e => (inv, log, some (.err e))
          | none => (inv, log, none)
    else (inv, log, none)
  match dnsRoleStep with
  | (inv, log, some out) => ⟨inv, log, out⟩
  | (inv, log, none) =>
  -- IAM Role for Cluster Autoscaling (optional)
  let autoRoleStep : ResourceInventory × List StepKind × Option StackOutcome :=
    if cfg.ClusterAutoscaling then
      match autoscalingPolicyArn with
      | none => (inv, log, some (.err "no cluster autoscaling policy ARN to attach to cluster autoscaling role"))
      | some _arn =>
          let (roleOpt, roleErr) := env.clusterAutoscalingRole
          let log := log ++ [StepKind.autoscalingRole]
          match roleOpt with
          | some r =>
              match r.PermissionsBoundaryArn with
              | none => (inv, log, some .panicked)
              | some barn =>
                  let inv := { inv with ClusterAutoscalingRole := ⟨r.RoleName, r.Arn, [barn]⟩ }
                  match roleErr with
                  | some e => (inv, log, some (.err e))
                  | none => (inv, log, none)
          | none =>
              match roleErr with
              | some e => (inv, log, some (.err e))
              | none => (inv, log, none)
    else (inv, log, none)
  match autoRoleStep with
  | (inv, log, some out) => ⟨inv, log, out⟩
  | (inv, log, none) =>
  -- IAM Role for Storage Management
  let (storageRoleOpt, storageRoleErr) := env.storageManagementRole
  let log := log ++ [StepKind.storageRole]
  match storageRoleOpt with
  | some r =>
      match r.PermissionsBoundaryArn with
      | none => ⟨inv, log, .panicked⟩
      | some barn =>
          let inv := { inv with StorageManagementRole := ⟨r.RoleName, r.Arn, [barn]⟩ }
          match storageRoleErr with
          | some e => ⟨inv, log, .err e⟩
          | none =>
            -- EBS CSI Addon (uses *storageManagementRole.Arn)
            let (_addonName, addonErr) := env.ebsStorageAddon
            let log := log ++ [StepKind.storageAddon]
            match addonErr with
            | some e => ⟨inv, log, .err e⟩
            | none => ⟨inv, log, .ok⟩
  | none =>
      match storageRoleErr with
      | some e => ⟨inv, log, .err e⟩
      | none => ⟨inv, log, .panicked⟩

/-! ## Delete adapters

Each delete adapter takes a provider oracle giving the response to each
call and returns the list of calls actually issued together with the error
returned to the caller (`none` is success).  All of them special-case the
NotFound error class of their provider as success. -/

/-- Loop of DeleteSubnets: a NotFound response returns success for the
    whole function at once. -/
def deleteSubnetsLoop (o : String → Resp) : List String → List String × Option String
  | [] => ([], none)
  | id :: rest =>
      match o id with
      | .ok =>
          let (calls, r) := deleteSubnetsLoop o rest
          (id :: calls, r)
      | .notFound => ([id], none)
      | .apiErr m => ([id], some ("failed to delete subnet with ID " ++ id ++ ": " ++ m))

/-- DeleteSubnets deletes the subnets used by the EKS cluster.  With no
    subnet IDs, or when a subnet is not found, it returns without error. -/
def DeleteSubnets (o : String → Resp) (subnetIDs : List String) :
    List String × Option String :=
  if subnetIDs.isEmpty then ([], none) else deleteSubnetsLoop o subnetIDs

/-- Loop of DeleteElasticIPs. -/
def deleteElasticIPsLoop (o : String → Resp) : List String → List String × Option String
  | [] => ([], none)
  | id :: rest =>
      match o id with
      | .ok =>
          let (calls, r) := deleteElasticIPsLoop o rest
          (id :: calls, r)
      | .notFound => ([id], none)
      | .apiErr m => ([id], some ("failed to delete elastic IP with ID " ++ id ++ ": " ++ m))

/-- DeleteElasticIPs releases elastic IP addresses; an empty list or a
    NotFound response is success. -/
def DeleteElasticIPs (o : String → Resp) (elasticIPIDs : List String) :
    List String × Option String :=
  if elasticIPIDs.isEmpty then ([], none) else deleteElasticIPsLoop o elasticIPIDs

/-- Loop of DeleteRouteTables. -/
def deleteRouteTablesLoop (o : String → Resp) : List String → List String × Option String
  | [] => ([], none)
  | id :: rest =>
      match o id with
      | .ok =>
          let (calls, r) := deleteRouteTablesLoop o rest
          (id :: calls, r)
      | .notFound => ([id], none)
      | .apiErr m => ([id], some ("failed to delete route table with ID " ++ id ++ ": " ++ m))

/-- DeleteRouteTables deletes the private route tables and the shared
    public route table; empty identifiers are skipped and NotFound is
    success. -/
def DeleteRouteTables (o : String → Resp) (privateRouteTableIDs : List String)
    (publicRouteTable : String) : List String × Option String :=
  if privateRouteTableIDs.isEmpty ∧ publicRouteTable = "" then ([], none)
  else
    let allRouteTableIDs :=
      if publicRouteTable = "" then privateRouteTableIDs
      else privateRouteTableIDs ++ [publicRouteTable]
    deleteRouteTablesLoop o allRouteTableIDs

/-- Loop of DeleteNodeGroups (the cluster name is fixed for the run). -/
def deleteNodeGroupsLoop (o : String → Resp) : List String → List String × Option String
  | [] => ([], none)
  | name :: rest =>
      match o name with
      | .ok =>
          let (calls, r) := deleteNodeGroupsLoop o rest
          (name :: calls, r)
      | .notFound => ([name], none)
      | .apiErr m => ([name], some ("failed to delete node group " ++ name ++ ": " ++ m))

/-- DeleteNodeGroups deletes the EKS cluster node groups; an empty cluster
    name or empty name list, or a ResourceNotFoundException, is success. -/
def DeleteNodeGroups (o : String → Resp) (clusterName : String) (nodeGroupNames : List String) :
    List String × Option String :=
  if clusterName = "" ∨ nodeGroupNames.isEmpty then ([], none)
  else deleteNodeGroupsLoop o nodeGroupNames

/-- Loop of DeletePolicies: NotFound skips to the next policy (continue)
    rather than returning. -/
def deletePoliciesLoop (o : String → Resp) : List String → List String × Option String
  | [] => ([], none)
  | arn :: rest =>
      match o arn with
      | .ok =>
          let (calls, r) := deletePoliciesLoop o rest
          (arn :: calls, r)
      | .notFound =>
          let (calls, r) := deletePoliciesLoop o rest
          (arn :: calls, r)
      | .apiErr m => ([arn], some ("failed to delete policy " ++ arn ++ ": " ++ m))

/-- DeletePolicies deletes the IAM policies; an empty list is success. -/
def DeletePolicies (o : String → Resp) (policyARNs : List String) :
    List String × Option String :=
  if policyARNs.isEmpty then ([], none) else deletePoliciesLoop o policyARNs

/-- Calls issued by DeleteRoles: policy detachments and role deletions. -/
inductive IAMCall where
  | detachPolicy (policyARN roleName : String) : IAMCall
  | deleteRole (roleName : String) : IAMCall
deriving DecidableEq, Repr

/-- Outcome of the detach loop inside DeleteRoles: finished, early success
    return (NotFound), or early error return. -/
inductive DetachOutcome where
  | done : DetachOutcome
  | earlyOk : DetachOutcome
  | earlyErr (msg : String) : DetachOutcome
deriving DecidableEq, Repr

/-- Detach loop of DeleteRoles for one role: a NoSuchEntityException on any
    detachment makes the whole DeleteRoles call return success. -/
def detachPoliciesLoop (detach : String → String → Resp) (roleName : String) :
    List String → List IAMCall × DetachOutcome
  | [] => ([], .done)
  | arn :: rest =>
      match detach arn roleName with
      | .ok =>
          let (calls, r) := detachPoliciesLoop detach roleName rest
          (IAMCall.detachPolicy arn roleName :: calls, r)
      | .notFound => ([IAMCall.detachPolicy arn roleName], .earlyOk)
      | .apiErr m =>
          ([IAMCall.detachPolicy arn roleName],
           .earlyErr ("failed to detach policy " ++ arn ++ " from role " ++ roleName ++ ": " ++ m))

/-- Role loop of DeleteRoles: per role, detach every recorded policy then
    delete the role; a NoSuchEntityException anywhere returns success for
    the whole function. -/
def deleteRolesLoop (detach : String → String → Resp) (del : String → Resp) :
    List RoleInventory → List IAMCall × Option String
  | [] => ([], none)
  | role :: rest =>
      match detachPoliciesLoop detach role.RoleName role.RolePolicyARNs with
      | (calls, .earlyOk) => (calls, none)
      | (calls, .earlyErr m) => (calls, some m)
      | (calls, .done) =>
          match del role.RoleName with
          | .notFound => (calls ++ [IAMCall.deleteRole role.RoleName], none)
          | .apiErr m =>
              (calls ++ [IAMCall.deleteRole role.RoleName],
               some ("failed to delete role " ++ role.RoleName ++ ": " ++ m))
          | .ok =>
              let (more, r) := deleteRolesLoop detach del rest
              (calls ++ [IAMCall.deleteRole role.RoleName] ++ more, r)

/-- DeleteRoles deletes the IAM roles used by EKS; an empty slice, or a
    NoSuchEntityException on any call, is success. -/
def DeleteRoles (detach : String → String → Resp) (del : String → Resp)
    (roles : List RoleInventory) : List IAMCall × Option String :=
  if roles.isEmpty then ([], none) else deleteRolesLoop detach del roles

/-- DeleteCluster deletes an EKS cluster; an empty name or a
    ResourceNotFoundException is success. -/
def DeleteCluster (o : String → Resp) (clusterName : String) :
    List String × Option String :=
  if clusterName = "" then ([], none)
  else
    match o clusterName with
    | .ok => ([clusterName], none)
    | .notFound => ([clusterName], none)
    | .apiErr m => ([clusterName], some ("failed to delete cluster: " ++ m))

/-- DeleteOIDCProvider deletes the IAM identity provider; an empty ARN or a
    NoSuchEntityException is success. -/
def DeleteOIDCProvider (o : String → Resp) (oidcProviderARN : String) :
    List String × Option String :=
  if oidcProviderARN = "" then ([], none)
  else
    match o oidcProviderARN with
    | .ok => ([oidcProviderARN], none)
    | .notFound => ([oidcProviderARN], none)
    | .apiErr m =>
        ([oidcProviderARN], some ("failed to delete IAM identity provider " ++ oidcProviderARN ++ ": " ++ m))

/-- DeleteInternetGateway detaches and then deletes the internet gateway;
    an empty ID or a NotFound on either call is success. -/
def DeleteInternetGateway (detach : String → Resp) (del : String → Resp)
    (internetGatewayID : String) : List String × Option String :=
  if internetGatewayID = "" then ([], none)
  else
    match detach internetGatewayID with
    | .notFound => (["detach " ++ internetGatewayID], none)
    | .apiErr m =>
        (["detach " ++ internetGatewayID],
         some ("failed to detach internet gateway with ID " ++ internetGatewayID ++ ": " ++ m))
    | .ok =>
        match del internetGatewayID with
        | .ok => (["detach " ++ internetGatewayID, "delete " ++ internetGatewayID], none)
        | .notFound => (["detach " ++ internetGatewayID, "delete " ++ internetGatewayID], none)
        | .apiErr m =>
            (["detach " ++ internetGatewayID, "delete " ++ internetGatewayID],
             some ("failed to delete internet gateway with ID " ++ internetGatewayID ++ ": " ++ m))

/-- Loop of DeleteNATGateways over the NAT gateway IDs the describe call
    reported for the VPC. -/
def deleteNATGatewaysLoop (o : String → Resp) : List String → List String × Option String
  | [] => ([], none)
  | id :: rest =>
      match o id with
      | .ok =>
          let (calls, r) := deleteNATGatewaysLoop o rest
          (id :: calls, r)
      | .notFound => ([id], none)
      | .apiErr m => ([id], some ("failed to delete NAT gateway with ID " ++ id ++ ": " ++ m))

/-- DeleteNATGateways looks up the NAT gateways of the VPC and deletes each
    of them; an empty VPC ID, no gateways, or a NotFound is success. -/
def DeleteNATGateways (describe : CallResult (List String)) (o : String → Resp)
    (vpcID : String) : List String × Option String :=
  if vpcID = "" then ([], none)
  else
    match describe with
    | .error m =>
        ([], some ("failed to get NAT gateway statuses for VPC with ID " ++ vpcID ++ " during deletion: " ++ m))
    | .ok natGatewayIDs => deleteNATGatewaysLoop o natGatewayIDs

/-- DeleteVPC deletes the VPC; an empty ID or a NotFound is success. -/
def DeleteVPC (o : String → Resp) (vpcID : String) : List String × Option String :=
  if vpcID = "" then ([], none)
  else
    match o vpcID with
    | .ok => ([vpcID], none)
    | .notFound => ([vpcID], none)
    | .apiErr m => ([vpcID], some ("failed to delete VPC with ID " ++ vpcID ++ ": " ++ m))

/-! ## Orchestrator, delete side (resource.go DeleteResourceStack) -/

/-- Environment of one DeleteResourceStack run: the provider oracles of the
    delete adapters and the outcomes of the three wait-for-Deleted calls. -/
structure DeleteEnv where
  deleteOIDCProvider : String → Resp
  deleteNodeGroup : String → Resp
  waitNodeGroupsDeleted : Option String
  deleteCluster : String → Resp
  waitClusterDeleted : Option String
  detachRolePolicy : String → String → Resp
  deleteRole : String → Resp
  deletePolicy : String → Resp
  describeNatGateways : CallResult (List String)
  deleteNatGateway : String → Resp
  waitNatGatewaysDeleted : Option String
  detachInternetGateway : String → Resp
  deleteInternetGateway : String → Resp
  releaseAddress : String → Resp
  deleteSubnet : String → Resp
  deleteRouteTable : String → Resp
  deleteVpc : String → Resp

/-- DeleteResourceStack deletes all the resources in the resource
    inventory, adapter by adapter in the order of the Go function,
    aborting on the first error; asynchronous deletions (node groups,
    cluster, NAT gateways) are each followed by a wait-for-Deleted step. -/
def DeleteResourceStack (env : DeleteEnv) (inv : ResourceInventory) :
    List StepKind × Option String :=
  -- OIDC Provider
  let (_, r) := DeleteOIDCProvider env.deleteOIDCProvider inv.OIDCProviderARN
  let log := [StepKind.oidcProvider]
  match r with
  | some e => (log, some e)
  | none =>
  -- Node Groups
  let (_, r) := DeleteNodeGroups env.deleteNodeGroup inv.Cluster.ClusterName inv.NodeGroupNames
  let log := log ++ [StepKind.nodeGroups]
  match r with
  | some e => (log, some e)
  | none =>
  let log := log ++ [StepKind.waitNodeGroupsDeleted]
  match env.waitNodeGroupsDeleted with
  | some e => (log, some e)
  | none =>
  -- EKS Cluster
  let (_, r) := DeleteCluster env.deleteCluster inv.Cluster.ClusterName
  let log := log ++ [StepKind.cluster]
  match r with
  | some e => (log, some e)
  | none =>
  let log := log ++ [StepKind.waitClusterDeleted]
  match env.waitClusterDeleted with
  | some e => (log, some e)
  | none =>
  -- IAM Roles
  let iamRoles := [inv.ClusterRole, inv.WorkerRole, inv.DNSManagementRole,
                   inv.ClusterAutoscalingRole, inv.StorageManagementRole]
  let (_, r) := DeleteRoles env.detachRolePolicy env.deleteRole iamRoles
  let log := log ++ [StepKind.iamRoles]
  match r with
  | some e => (log, some e)
  | none =>
  -- IAM Policies
  let (_, r) := DeletePolicies env.deletePolicy inv.PolicyARNs
  let log := log ++ [StepKind.policies]
  match r with
  | some e => (log, some e)
  | none =>
  -- NAT Gateways
  let (_, r) := DeleteNATGateways env.describeNatGateways env.deleteNatGateway inv.VPCID
  let log := log ++ [StepKind.natGateways]
  match r with
  | some e => (log, some e)
  | none =>
  let log := log ++ [StepKind.waitNatGatewaysDeleted]
  match env.waitNatGatewaysDeleted with
  | some e => (log, some e)
  | none =>
  -- Internet Gateway
  let (_, r) := DeleteInternetGateway env.detachInternetGateway env.deleteInternetGateway
                  inv.InternetGatewayID
  let log := log ++ [StepKind.internetGateway]
  match r with
  | some e => (log, some e)
  | none =>
  -- Elastic IPs
  let (_, r) := DeleteElasticIPs env.releaseAddress inv.ElasticIPIDs
  let log := log ++ [StepKind.elasticIPs]
  match r with
  | some e => (log, some e)
  | none =>
  -- Subnets
  let (_, r) := DeleteSubnets env.deleteSubnet inv.SubnetIDs
  let log := log ++ [StepKind.subnets]
  match r with
  | some e => (log, some e)
  | none =>
  -- Route Tables
  let (_, r) := DeleteRouteTables env.deleteRouteTable inv.PrivateRouteTableIDs
                  inv.PublicRouteTableID
  let log := log ++ [StepKind.routeTables]
  match r with
  | some e => (log, some e)
  | none =>
  -- VPC
  let (_, r) := DeleteVPC env.deleteVpc inv.VPCID
  let log := log ++ [StepKind.vpc]
  (log, r)

/-! ## Wait primitives

Each polling loop is embedded with the status fetch supplied as an oracle
indexed by the attempt number (Go sleeps between attempts; the sleep
carries no information).  Each wait returns the number of poll rounds it
performed together with its outcome, so ceiling statements are direct. -/

def NodeGroupCheckMaxCount : Nat := 240
def NATGatewayCheckMaxCount : Nat := 20
def ClusterCheckMaxCount : Nat := 60

/-- Node group status as the wait loop distinguishes it: ACTIVE,
    CREATE_FAILED, or any other (still-pending) status. -/
inductive NGStatus where
  | active
  | createFailed
  | pending
deriving DecidableEq, Repr

/-- Node group object as returned by DescribeNodegroup: its status and the
    optional health-issue messages. -/
structure NodeGroup where
  status : NGStatus
  health : Option (List String)
deriving DecidableEq, Repr

/-- Outcome of one getNodeGroup call: the node group, a
    ResourceNotFoundException, or another describe error. -/
inductive NGFetch where
  | group (g : NodeGroup)
  | notFound
  | fetchErr (msg : String)
deriving DecidableEq, Repr

/-- Conditions WaitForNodeGroups can await. -/
inductive NGCondition where
  | created
  | deleted
deriving DecidableEq, Repr

/-- Outcome of one poll round over all node group names: every condition
    met, some group still unmet (with the health detail as last observed),
    or an immediate failure return. -/
inductive NGRound where
  | allMet
  | unmet (health : List String)
  | fail (msg : String)
deriving DecidableEq, Repr

/-- Inner loop of WaitForNodeGroups over the node group names: the health
    detail is updated from every successfully described group, a NotFound
    while awaiting deletion counts as met, a CREATE_FAILED status fails
    immediately with the health issues, and the first unmet group ends the
    round. -/
def nodeGroupsRound (fetch : Nat → String → NGFetch) (cond : NGCondition) (attempt : Nat) :
    List String → List String → NGRound
  | [], _ => .allMet
  | name :: rest, health =>
      match fetch attempt name with
      | .group g =>
          let health := match g.health with
            | some issues => issues
            | none => health
          if g.status = .active ∧ cond = .created then
            nodeGroupsRound fetch cond attempt rest health
          else if g.status = .createFailed then
            .fail ("failed to create node group " ++ name ++ ". Issues with node group: "
                   ++ String.intercalate ", " health)
          else
            .unmet health
      | .notFound =>
          if cond = .deleted then nodeGroupsRound fetch cond attempt rest health
          else .fail ("failed to get node group status while waiting for " ++ name)
      | .fetchErr m =>
          .fail ("failed to get node group status while waiting for " ++ name ++ ": " ++ m)

/-- Outcome of WaitForNodeGroups: success, a timeout annotated with the
    last observed health issues, or a non-timeout failure. -/
inductive NGWaitOut where
  | ok
  | timeout (healthIssues : List String)
  | fail (msg : String)
deriving DecidableEq, Repr

/-- Outer loop of WaitForNodeGroups: poll rounds run while the attempt
    counter stays within the ceiling; crossing the ceiling returns the
    timeout annotated with the last known health detail. -/
def waitForNodeGroupsAux (fetch : Nat → String → NGFetch) (cond : NGCondition)
    (names : List String) : Nat → Nat → List String → Nat × NGWaitOut
  | _, 0, health => (0, .timeout health)
  | attempt, remaining + 1, health =>
      match nodeGroupsRound fetch cond attempt names health with
      | .allMet => (1, .ok)
      | .fail m => (1, .fail m)
      | .unmet health2 =>
          let (n, res) := waitForNodeGroupsAux fetch cond names (attempt + 1) remaining health2
          (n + 1, res)

/-- WaitForNodeGroups waits for all the provided node groups to reach a
    given condition, polling up to NodeGroupCheckMaxCount times. -/
def WaitForNodeGroups (fetch : Nat → String → NGFetch) (cond : NGCondition)
    (nodeGroupNames : List String) : Nat × NGWaitOut :=
  if nodeGroupNames.isEmpty then (0, .ok)
  else waitForNodeGroupsAux fetch cond nodeGroupNames 1 NodeGroupCheckMaxCount []

/-- NAT gateway state as the wait loop distinguishes it. -/
inductive NatState where
  | available
  | deleted
  | pending
deriving DecidableEq, Repr

/-- Conditions WaitForNATGateways can await. -/
inductive NATCondition where
  | created
  | deleted
deriving DecidableEq, Repr

/-- Whether one NAT gateway state meets the awaited condition. -/
def natStateMet (cond : NATCondition) (s : NatState) : Bool :=
  if s ≠ .available ∧ cond = .created then false
  else if s ≠ .deleted ∧ cond = .deleted then false
  else true

/-- Outcome of WaitForNATGateways. -/
inductive NatWaitOut where
  | ok
  | timeout
  | fail (msg : String)
deriving DecidableEq, Repr

/-- Outer loop of WaitForNATGateways: per round one DescribeNatGateways
    call; no gateways while awaiting deletion is success, as is every
    reported state meeting the condition. -/
def waitForNATGatewaysAux (fetch : Nat → CallResult (List NatState)) (cond : NATCondition) :
    Nat → Nat → Nat × NatWaitOut
  | _, 0 => (0, .timeout)
  | attempt, remaining + 1 =>
      match fetch attempt with
      | .error m => (1, .fail ("failed to get NAT gateway statuses: " ++ m))
      | .ok states =>
          if states.isEmpty ∧ cond = .deleted then (1, .ok)
          else if states.all (natStateMet cond) then (1, .ok)
          else
            let (n, res) := waitForNATGatewaysAux fetch cond (attempt + 1) remaining
            (n + 1, res)

/-- WaitForNATGateways waits for the NAT gateways of a VPC to reach a given
    condition, polling up to NATGatewayCheckMaxCount times. -/
def WaitForNATGateways (fetch : Nat → CallResult (List NatState)) (cond : NATCondition) :
    Nat × NatWaitOut :=
  waitForNATGatewaysAux fetch cond 1 NATGatewayCheckMaxCount

/-- Cluster status as the wait loop distinguishes it: ACTIVE or any other
    still-pending status. -/
inductive ClusterStatus where
  | active
  | pending
deriving DecidableEq, Repr

/-- Outcome of one getClusterStatus call. -/
inductive ClusterFetch where
  | status (s : ClusterStatus)
  | notFound
  | fetchErr (msg : String)
deriving DecidableEq, Repr

/-- Conditions WaitForCluster can await. -/
inductive ClusterCondition where
  | created
  | deleted
deriving DecidableEq, Repr

/-- Outcome of WaitForCluster. -/
inductive ClusterWaitOut where
  | ok
  | timeout
  | fail (msg : String)
deriving DecidableEq, Repr

/-- Outer loop of WaitForCluster: a NotFound while awaiting deletion is
    success; an ACTIVE status while awaiting creation is success; any other
    status keeps polling until the ceiling. -/
def waitForClusterAux (fetch : Nat → ClusterFetch) (cond : ClusterCondition) :
    Nat → Nat → Nat × ClusterWaitOut
  | _, 0 => (0, .timeout)
  | attempt, remaining + 1 =>
      match fetch attempt with
      | .notFound =>
          if cond = .deleted then (1, .ok)
          else (1, .fail "failed to get cluster status")
      | .fetchErr m => (1, .fail ("failed to get cluster status: " ++ m))
      | .status s =>
          if s = .active ∧ cond = .created then (1, .ok)
          else
            let (n, res) := waitForClusterAux fetch cond (attempt + 1) remaining
            (n + 1, res)

/-- WaitForCluster waits until the cluster reaches a condition; an empty
    cluster name returns immediately. -/
def WaitForCluster (fetch : Nat → ClusterFetch) (clusterName : String)
    (cond : ClusterCondition) : Nat × ClusterWaitOut :=
  if clusterName = "" then (0, .ok)
  else waitForClusterAux fetch cond 1 ClusterCheckMaxCount

/-! ## Role-name length precondition

Modelled from the spec: the validating revision of role.go — in which each
role-creating operation (CreateRoles, CreateDNSManagementRole,
CreateClusterAutoscalingRole, CreateStorageManagementRole) derives its
role name from the cluster name and validates it against the provider
ceiling of 64 characters before attempting creation — is not among the
source snapshots, which carry fixed constant role names and no check.  The
model keeps the constructed role name as the input and follows the spec
sentence: the length check is a local precondition, not a provider round
trip. -/

/-- Modelled from the spec: the provider ceiling for IAM role names. -/
def RoleNameMaxLength : Nat := 64

/-- Modelled from the spec: checkRoleName validates a constructed role name
    against the 64-character provider ceiling, returning a precondition
    error for longer names. -/
def checkRoleName (name : String) : Option String :=
  if name.length > RoleNameMaxLength then
    some ("role name " ++ name ++ " too long, must be 64 characters or less")
  else none

/-- Modelled from the spec: the shared shape of each role-creating
    operation: validate the constructed role name first and raise the
    precondition error without any provider call; only a valid name
    reaches the provider CreateRole call.  The first component is the list
    of provider create calls issued. -/
def createRoleChecked (provider : String → CallResult Role) (roleName : String) :
    List String × CallResult Role :=
  match checkRoleName roleName with
  | some e => ([], .error e)
  | none => ([roleName], provider roleName)

/-! ## Issuer scheme handling in the IRSA trust policies (role.go)

CreateDNSManagementRole, CreateClusterAutoscalingRole and
CreateStorageManagementRole each compute
`oidcProviderBare := strings.Trim(oidcProvider, "https://")` and embed the
result into the trust-policy document (as the Federated principal suffix
and the StringEquals condition keys). -/

/-- Go strings.Trim: removes every leading and every trailing code point
    that is contained in the cutset (the cutset is a set of characters, not
    a prefix). -/
def stringsTrim (s cutset : String) : String :=
  let cut := cutset.toList
  String.mk (((s.toList.dropWhile (· ∈ cut)).reverse.dropWhile (· ∈ cut)).reverse)

/-- Bare issuer as role.go computes it for the three IRSA roles. -/
def oidcProviderBare (oidcProvider : String) : String :=
  stringsTrim oidcProvider "https://"

/-- Federated principal ARN embedded into each IRSA trust-policy document
    (the document is a fixed string template around this value and the
    corresponding condition keys). -/
def irsaFederatedPrincipal (awsAccountID oidcProvider : String) : String :=
  "arn:aws:iam::" ++ awsAccountID ++ ":oidc-provider/" ++ oidcProviderBare oidcProvider

/-- Scheme stripping as the specification describes it: exactly the leading
    https scheme removed, the remainder of the URL unchanged. -/
def schemeStrippedSpec (s : String) : String :=
  if ("https://".toList).isPrefixOf s.toList then String.mk (s.toList.drop 8) else s

/-! ## Theorems -/

/-- C7.  Issuer scheme stripping: the trust-policy documents do NOT embed
    the issuer with exactly its scheme prefix removed.  role.go computes
    strings.Trim(oidcProvider, "https://"), which treats the cutset as a
    character set: for the issuer URL https://sts.example.com/id/EX the
    embedded value is .example.com/id/EX (the leading sts of the host is
    eaten), while exact scheme-prefix stripping yields
    sts.example.com/id/EX.  The code is a slip against the stated intent
    (strings.TrimPrefix was meant). -/
theorem issuer_trim_is_not_prefix_strip :
    oidcProviderBare "https://sts.example.com/id/EX" = ".example.com/id/EX" ∧
    schemeStrippedSpec "https://sts.example.com/id/EX" = "sts.example.com/id/EX" ∧
    irsaFederatedPrincipal "111122223333" "https://sts.example.com/id/EX" =
      "arn:aws:iam::111122223333:oidc-provider/.example.com/id/EX" ∧
    oidcProviderBare "https://sts.example.com/id/EX" ≠
      schemeStrippedSpec "https://sts.example.com/id/EX" := by
  refine ⟨by decide, by decide, by decide, by decide⟩

/-- C6.  Role-name length precondition (modelled from the spec): a
    constructed role name longer than 64 characters makes the role-creating
    operation return the precondition error without issuing any provider
    create call. -/
theorem role_name_precondition (provider : String → CallResult Role)
    (roleName : String) (h : roleName.length > RoleNameMaxLength) :
    createRoleChecked provider roleName =
      ([], .error ("role name " ++ roleName ++ " too long, must be 64 characters or less")) := by
  simp [createRoleChecked, checkRoleName, h]

/-- Witness for C6: a 70-character role name is rejected locally and the
    provider oracle is never consulted. -/
theorem role_name_precondition_witness :
    ("a-cluster-name-this-long-makes-the-derived-role-name-exceed-limits".length > RoleNameMaxLength) ∧
    createRoleChecked (fun n => .ok ⟨n, "arn", none⟩)
        "a-cluster-name-this-long-makes-the-derived-role-name-exceed-limits" =
      ([], .error ("role name " ++
        "a-cluster-name-this-long-makes-the-derived-role-name-exceed-limits" ++
        " too long, must be 64 characters or less")) :=
  ⟨by decide,
   role_name_precondition (fun n => .ok ⟨n, "arn", none⟩)
     "a-cluster-name-this-long-makes-the-derived-role-name-exceed-limits" (by decide)⟩

/-! ## Concrete runs of the orchestrator

Concrete configuration and environments used to evaluate the embedded
orchestrator on explicit inputs: a two-zone configuration with both
optional features enabled, an environment in which every provider call
succeeds, an environment in which the second private subnet creation
fails, and a fully-populated inventory for the delete side. -/

def azA : AvailabilityZone := ⟨"us-east-2a", "10.0.0.0/22", "", "10.0.4.0/22", "", ""⟩
def azB : AvailabilityZone := ⟨"us-east-2b", "10.0.8.0/22", "", "10.0.12.0/22", "", ""⟩

def cfgFull : ResourceConfig :=
  { Name := "eks-cluster"
    Region := "us-east-2"
    AWSAccountID := "111122223333"
    KubernetesVersion := "1.26"
    ClusterCIDR := "10.0.0.0/16"
    AvailabilityZones := [azA, azB]
    InstanceTypes := ["t2.micro"]
    InitialNodes := 2
    MinNodes := 2
    MaxNodes := 4
    DNSManagement := true
    DNSManagementServiceAccount := ⟨"external-dns", "kube-system"⟩
    StorageManagementServiceAccount := ⟨"ebs-csi", "kube-system"⟩
    ClusterAutoscaling := true
    ClusterAutoscalingServiceAccount := ⟨"cluster-autoscaler", "kube-system"⟩
    KeyPair := ""
    Tags := some GoMap.empty }

/-- Environment in which every provider call of the create sequence
    succeeds. -/
def envAllOk : StackEnv :=
  { vpc := (some "vpc-1", none)
    internetGateway := (some "igw-1", none)
    subnetCalls :=
      { createPrivateSubnet := fun i => .ok (if i = 0 then "subnet-private-a" else "subnet-private-b")
        createPublicSubnet := fun i => .ok (if i = 0 then "subnet-public-a" else "subnet-public-b")
        modifySubnetAttribute := fun _ => none }
    allocateAddress := fun i => .ok (if i = 0 then "eipalloc-a" else "eipalloc-b")
    createNatGateway := fun _ => none
    waitNatGatewaysCreated := none
    routeTables := (["rtb-private-a", "rtb-private-b"], some "rtb-public", none)
    dnsPolicy := (some ⟨some "arn:aws:iam::111122223333:policy/DNSUpdates-eks-cluster", "DNSUpdates-eks-cluster"⟩, none)
    autoscalingPolicy := (some ⟨some "arn:aws:iam::111122223333:policy/ClusterAutoscaler-eks-cluster", "ClusterAutoscaler-eks-cluster"⟩, none)
    roles := (some ⟨ClusterRoleName, "arn:aws:iam::111122223333:role/eks-cluster-role", some ClusterPolicyARN⟩,
              some ⟨WorkerRoleName, "arn:aws:iam::111122223333:role/eks-cluster-workler-role", none⟩, none)
    cluster := (some ("eks-cluster", "arn:aws:eks:us-east-2:111122223333:cluster/eks-cluster"), none)
    waitClusterCreated := ("https://oidc.eks.us-east-2.amazonaws.com/id/EX", none)
    nodeGroups := (some ["eks-cluster-private-node-group"], none)
    waitNodeGroupsCreated := none
    oidcProvider := ("arn:aws:iam::111122223333:oidc-provider/oidc.eks.us-east-2.amazonaws.com/id/EX", none)
    dnsManagementRole := (some ⟨DNSManagementRoleName, "arn:aws:iam::111122223333:role/eks-cluster-dns-management-role", some "arn:aws:iam::111122223333:policy/DNSUpdates-eks-cluster"⟩, none)
    clusterAutoscalingRole := (some ⟨"eks-cluster-cluster-autoscaler-role", "arn:aws:iam::111122223333:role/eks-cluster-cluster-autoscaler-role", some "arn:aws:iam::111122223333:policy/ClusterAutoscaler-eks-cluster"⟩, none)
    storageManagementRole := (some ⟨"eks-cluster-csi-driver-role", "arn:aws:iam::111122223333:role/eks-cluster-csi-driver-role", some "arn:aws:iam::aws:policy/service-role/AmazonEBSCSIDriverPolicy"⟩, none)
    ebsStorageAddon := (some "aws-ebs-csi-driver", none) }

/-- Environment identical to envAllOk except that creating the private
    subnet of the second availability zone fails at the provider. -/
def envSubnetFail : StackEnv :=
  { envAllOk with
    subnetCalls :=
      { createPrivateSubnet := fun i => if i = 0 then .ok "subnet-private-a" else .error "api error"
        createPublicSubnet := fun i => .ok (if i = 0 then "subnet-public-a" else "subnet-public-b")
        modifySubnetAttribute := fun _ => none } }

/-- Fully-populated inventory as a successful create run of the two-zone,
    all-features configuration records it. -/
def invFull : ResourceInventory :=
  { Region := "us-east-2"
    VPCID := "vpc-1"
    SubnetIDs := ["subnet-private-a", "subnet-private-b", "subnet-public-a", "subnet-public-b"]
    InternetGatewayID := "igw-1"
    ElasticIPIDs := ["eipalloc-a", "eipalloc-b"]
    PrivateRouteTableIDs := ["rtb-private-a", "rtb-private-b"]
    PublicRouteTableID := "rtb-public"
    ClusterRole := ⟨ClusterRoleName, "arn:aws:iam::111122223333:role/eks-cluster-role", [ClusterPolicyARN]⟩
    WorkerRole := ⟨WorkerRoleName, "arn:aws:iam::111122223333:role/eks-cluster-workler-role", getWorkerPolicyARNs⟩
    DNSManagementRole := ⟨DNSManagementRoleName, "arn:aws:iam::111122223333:role/eks-cluster-dns-management-role", ["arn:aws:iam::111122223333:policy/DNSUpdates-eks-cluster"]⟩
    DNS01ChallengeRole := RoleInventory.zero
    StorageManagementRole := ⟨"eks-cluster-csi-driver-role", "arn:aws:iam::111122223333:role/eks-cluster-csi-driver-role", ["arn:aws:iam::aws:policy/service-role/AmazonEBSCSIDriverPolicy"]⟩
    ClusterAutoscalingRole := ⟨"eks-cluster-cluster-autoscaler-role", "arn:aws:iam::111122223333:role/eks-cluster-cluster-autoscaler-role", ["arn:aws:iam::111122223333:policy/ClusterAutoscaler-eks-cluster"]⟩
    PolicyARNs := ["arn:aws:iam::111122223333:policy/DNSUpdates-eks-cluster", "arn:aws:iam::111122223333:policy/ClusterAutoscaler-eks-cluster"]
    Cluster := ⟨"eks-cluster", "arn:aws:eks:us-east-2:111122223333:cluster/eks-cluster", "https://oidc.eks.us-east-2.amazonaws.com/id/EX"⟩
    NodeGroupNames := ["eks-cluster-private-node-group"]
    OIDCProviderARN := "arn:aws:iam::111122223333:oidc-provider/oidc.eks.us-east-2.amazonaws.com/id/EX" }

/-- Delete-side environment in which every provider call succeeds. -/
def envDeleteAllOk : DeleteEnv :=
  { deleteOIDCProvider := fun _ => .ok
    deleteNodeGroup := fun _ => .ok
    waitNodeGroupsDeleted := none
    deleteCluster := fun _ => .ok
    waitClusterDeleted := none
    detachRolePolicy := fun _ _ => .ok
    deleteRole := fun _ => .ok
    deletePolicy := fun _ => .ok
    describeNatGateways := .ok ["nat-a", "nat-b"]
    deleteNatGateway := fun _ => .ok
    waitNatGatewaysDeleted := none
    detachInternetGateway := fun _ => .ok
    deleteInternetGateway := fun _ => .ok
    releaseAddress := fun _ => .ok
    deleteSubnet := fun _ => .ok
    deleteRouteTable := fun _ => .ok
    deleteVpc := fun _ => .ok }

/-- Resource kinds created exactly once and deleted exactly once, used to
    compare the relative order of the two sequences. -/
def coreKinds : List StepKind :=
  [.vpc, .internetGateway, .subnets, .elasticIPs, .natGateways, .routeTables,
   .cluster, .nodeGroups, .oidcProvider]

/-- C1.  Evaluation of the create sequence at a run in which the private
    subnet of the second availability zone fails: the provider has already
    created two subnets (the first zone pair), but CreateSubnets returns
    nil for both subnet slices on a private-subnet failure, so the
    orchestrator records no subnet ID at all in the inventory it returns:
    the inventory is not a superset of what was created, and it omits
    identifiers the claim says it contains. -/
theorem subnet_ids_lost_on_partial_failure :
    (CreateSubnets envSubnetFail.subnetCalls cfgFull.AvailabilityZones).created =
      ["subnet-private-a", "subnet-public-a"] ∧
    (CreateResourceStack cfgFull envSubnetFail).inventory.SubnetIDs = [] ∧
    (CreateResourceStack cfgFull envSubnetFail).outcome =
      .err "failed to create private subnet: api error" ∧
    (CreateResourceStack cfgFull envSubnetFail).log =
      [.vpc, .internetGateway, .subnets] := by
  refine ⟨rfl, rfl, rfl, rfl⟩

/-- C2 counterexample.  On a fully-populated inventory, the order of the
    delete-adapter invocations restricted to the resource kinds that are
    created exactly once and deleted exactly once is NOT the reverse of the
    create-adapter invocation order restricted to the same kinds: deletion
    runs NAT gateways, internet gateway, elastic IPs, subnets, route
    tables, VPC, while the exact reverse of creation would run route
    tables, NAT gateways, elastic IPs, subnets, internet gateway, VPC. -/
theorem teardown_not_exact_reverse :
    ((DeleteResourceStack envDeleteAllOk invFull).1).filter (· ∈ coreKinds) ≠
      (((CreateResourceStack cfgFull envAllOk).log).filter (· ∈ coreKinds)).reverse := by
  decide

/-- C2 amended.  The create sequence and the delete sequence are the fixed
    orders below: deletion starts from the OIDC provider, node groups,
    cluster and IAM resources and ends with the networking resources, with
    every asynchronous deletion (node groups, cluster, NAT gateways)
    followed by its wait-for-Deleted step; the networking teardown order is
    NAT gateways, internet gateway, elastic IPs, subnets, route tables,
    VPC, which is not the mirror image of their creation order. -/
theorem teardown_order :
    (CreateResourceStack cfgFull envAllOk).outcome = .ok ∧
    (CreateResourceStack cfgFull envAllOk).inventory = invFull ∧
    (CreateResourceStack cfgFull envAllOk).log =
      [.vpc, .internetGateway, .subnets, .elasticIPs, .natGateways,
       .waitNatGatewaysCreated, .routeTables, .dnsPolicy, .autoscalingPolicy,
       .iamRoles, .cluster, .waitClusterCreated, .nodeGroups,
       .waitNodeGroupsCreated, .oidcProvider, .dnsRole, .autoscalingRole,
       .storageRole, .storageAddon] ∧
    (DeleteResourceStack envDeleteAllOk invFull).1 =
      [.oidcProvider, .nodeGroups, .waitNodeGroupsDeleted, .cluster,
       .waitClusterDeleted, .iamRoles, .policies, .natGateways,
       .waitNatGatewaysDeleted, .internetGateway, .elasticIPs, .subnets,
       .routeTables, .vpc] ∧
    (DeleteResourceStack envDeleteAllOk invFull).2 = none := by
  refine ⟨rfl, rfl, rfl, rfl, rfl⟩

/-- C9.  CreateMapTags requires a non-nil tag map: with a nil map the
    assignment of the Name key panics, and since the orchestrator computes
    the map tags before its first adapter call, a tagless configuration
    aborts every CreateResourceStack run before any resource is created
    (empty invocation log).  With a non-nil map, CreateMapTags returns the
    very map it was handed with the Name key set (mutation in place), all
    other keys unchanged. -/
theorem tagless_config_panics_before_any_call (cfg : ResourceConfig) (env : StackEnv)
    (h : cfg.Tags = none) :
    (CreateResourceStack cfg env).outcome = .panicked ∧
    (CreateResourceStack cfg env).log = [] ∧
    (∀ (name : String) (m : GoMap),
      CreateMapTags name (some m) = some (m.set "Name" name) ∧
      (m.set "Name" name) "Name" = some name ∧
      ∀ k, k ≠ "Name" → (m.set "Name" name) k = m k) := by
  refine ⟨?_, ?_, ?_⟩
  · simp [CreateResourceStack, CreateMapTags, h]
  · simp [CreateResourceStack, CreateMapTags, h]
  · intro name m
    refine ⟨rfl, ?_, ?_⟩
    · simp [GoMap.set]
    · intro k hk
      simp [GoMap.set, hk]

/-- Witness for C9: the two-zone configuration with its tag map removed
    panics before any adapter invocation, and CreateMapTags on the empty
    non-nil map yields the map extended with the Name key. -/
theorem tagless_config_panics_witness :
    (CreateResourceStack { cfgFull with Tags := none } envAllOk).outcome = .panicked ∧
    (CreateResourceStack { cfgFull with Tags := none } envAllOk).log = [] ∧
    CreateMapTags "eks-cluster" (some GoMap.empty) =
      some (GoMap.empty.set "Name" "eks-cluster") := by
  have h := tagless_config_panics_before_any_call { cfgFull with Tags := none } envAllOk rfl
  exact ⟨h.1, h.2.1, (h.2.2 "eks-cluster" GoMap.empty).1⟩

theorem createNATGatewaysLoop_no_panic (createNat : Nat → Option String)
    (eips : List String) (azs : List AvailabilityZone) (i : Nat)
    (h : i + azs.length ≤ eips.length) :
    (createNATGatewaysLoop createNat eips i azs).2 ≠ .panicked := by
  induction azs generalizing i with
  | nil => simp [createNATGatewaysLoop]
  | cons az rest ih =>
      have hi : i < eips.length := by simp at h; omega
      have he : eips.get? i = some (eips.get ⟨i, hi⟩) := List.get?_eq_get hi
      simp only [createNATGatewaysLoop, he]
      match hc : createNat i with
      | some m => simp
      | none =>
          have := ih (i + 1) (by simp at h ⊢; omega)
          simp only []
          cases hr : createNATGatewaysLoop createNat eips (i + 1) rest with
          | mk log r => simpa [hr] using this

theorem createNATGatewaysLoop_panics (createNat : Nat → Option String)
    (eips : List String) (hok : ∀ j, createNat j = none) :
    ∀ (azs : List AvailabilityZone) (i : Nat),
      i ≤ eips.length → eips.length < i + azs.length →
      createNATGatewaysLoop createNat eips i azs =
        ((azs.map (fun az => az.PublicSubnetID)).zip (eips.drop i), .panicked) := by
  intro azs
  induction azs with
  | nil => intro i h1 h2; simp at h2; omega
  | cons az rest ih =>
      intro i h1 h2
      rcases Nat.lt_or_ge i eips.length with hi | hi
      · have he : eips.get? i = some (eips.get ⟨i, hi⟩) := List.get?_eq_get hi
        have hrec := ih (i + 1) (by omega) (by simp at h2 ⊢; omega)
        have hdrop : eips.drop i = eips[i] :: eips.drop (i + 1) :=
          List.drop_eq_getElem_cons hi
        simp only [createNATGatewaysLoop, he, hok i, hrec]
        rw [List.map_cons, hdrop, List.zip_cons_cons]
        simp [List.get_eq_getElem]
      · have hge : eips.get? i = none := List.get?_eq_none.mpr hi
        have hieq : eips.length = i := by omega
        simp only [createNATGatewaysLoop, hge]
        have : eips.drop i = [] := List.drop_eq_nil_of_le (by omega)
        simp [this]

/-- C10.  CreateNATGateways indexes the elastic IP list by availability
    zone position with no bounds check: whenever the elastic IP list is at
    least as long as the zone list the run never panics (for any provider
    behaviour), and whenever it is shorter and the provider accepts each
    issued creation, the run panics with index-out-of-range, having issued
    exactly one provider call per zone that has an elastic IP (none for the
    out-of-range zone). -/
theorem nat_gateway_index_precondition (azs : List AvailabilityZone) (eips : List String)
    (createNat : Nat → Option String) :
    (azs.length ≤ eips.length →
      (CreateNATGateways createNat azs eips).2 ≠ .panicked) ∧
    (eips.length < azs.length → (∀ j, createNat j = none) →
      CreateNATGateways createNat azs eips =
        ((azs.map (fun az => az.PublicSubnetID)).zip eips, .panicked)) := by
  constructor
  · intro h
    exact createNATGatewaysLoop_no_panic createNat eips azs 0 (by omega)
  · intro h hok
    have := createNATGatewaysLoop_panics createNat eips hok azs 0 (by omega) (by omega)
    simpa [CreateNATGateways] using this

/-- Witness for C10: with two zones and a single elastic IP the run panics
    after exactly one provider call; with one zone and two elastic IPs it
    does not panic. -/
theorem nat_gateway_index_precondition_witness :
    CreateNATGateways (fun _ => none) [azA, azB] ["eipalloc-a"] =
      ([("", "eipalloc-a")], .panicked) ∧
    (CreateNATGateways (fun _ => none) [azA] ["eipalloc-a", "eipalloc-b"]).2 ≠ .panicked := by
  constructor
  · have := (nat_gateway_index_precondition [azA, azB] ["eipalloc-a"] (fun _ => none)).2
      (by decide) (fun _ => rfl)
    simpa [azA, azB] using this
  · exact (nat_gateway_index_precondition [azA] ["eipalloc-a", "eipalloc-b"] (fun _ => none)).1
      (by decide)

theorem nodeGroupsRound_pending (fetch : Nat → String → NGFetch)
    (H : Nat → String → List String) (cond : NGCondition)
    (hf : ∀ a n, fetch a n = .group ⟨.pending, some (H a n)⟩)
    (a : Nat) (name : String) (rest : List String) (h : List String) :
    nodeGroupsRound fetch cond a (name :: rest) h = .unmet (H a name) := by
  simp [nodeGroupsRound, hf a name]

theorem waitForNodeGroupsAux_pending (fetch : Nat → String → NGFetch)
    (H : Nat → String → List String) (cond : NGCondition)
    (name : String) (rest : List String)
    (hf : ∀ a n, fetch a n = .group ⟨.pending, some (H a n)⟩) :
    ∀ (r a : Nat) (h : List String),
      waitForNodeGroupsAux fetch cond (name :: rest) a (r + 1) h =
        (r + 1, .timeout (H (a + r) name)) := by
  intro r
  induction r with
  | zero =>
      intro a h
      simp [waitForNodeGroupsAux, nodeGroupsRound_pending fetch H cond hf a name rest h]
  | succ r ih =>
      intro a h
      have step : waitForNodeGroupsAux fetch cond (name :: rest) a (r + 1 + 1) h =
          ((waitForNodeGroupsAux fetch cond (name :: rest) (a + 1) (r + 1) (H a name)).1 + 1,
           (waitForNodeGroupsAux fetch cond (name :: rest) (a + 1) (r + 1) (H a name)).2) := by
        conv_lhs => rw [waitForNodeGroupsAux]
        rw [nodeGroupsRound_pending fetch H cond hf a name rest h]
      rw [step, ih (a + 1) (H a name)]
      have harith : a + 1 + r = a + (r + 1) := by omega
      rw [harith]

theorem waitForNATGatewaysAux_pending (fetch : Nat → CallResult (List NatState))
    (S : Nat → List NatState) (cond : NATCondition)
    (hf : ∀ a, fetch a = .ok (S a))
    (hmet : ∀ a, (S a).all (natStateMet cond) = false) :
    ∀ (r a : Nat), waitForNATGatewaysAux fetch cond a r = (r, .timeout) := by
  intro r
  induction r with
  | zero => intro a; rfl
  | succ r ih =>
      intro a
      have hSne : (S a).isEmpty = false := by
        cases hS : S a with
        | nil =>
            exfalso
            have hm := hmet a
            rw [hS] at hm
            simp at hm
        | cons x xs => simp [hS]
      simp [waitForNATGatewaysAux, hf a, hmet a, hSne, ih (a + 1)]

theorem waitForClusterAux_pending (fetch : Nat → ClusterFetch) (cond : ClusterCondition)
    (hf : ∀ a, fetch a = .status .pending) :
    ∀ (r a : Nat), waitForClusterAux fetch cond a r = (r, .timeout) := by
  intro r
  induction r with
  | zero => intro a; rfl
  | succ r ih => intro a; simp [waitForClusterAux, hf a, ih (a + 1)]

/-- C5.  Wait ceiling semantics: against a status fetch that never reports
    the awaited condition (always a pending status, never NotFound, never a
    terminal failure), WaitForNodeGroups performs exactly 240 poll rounds
    and then returns the timeout annotated with the last observed health
    detail, WaitForNATGateways performs exactly 20 and WaitForCluster
    exactly 60 before returning their timeout errors; none of them can
    time out earlier than its ceiling. -/
theorem wait_ceilings :
    (∀ (fetch : Nat → String → NGFetch) (H : Nat → String → List String)
       (cond : NGCondition) (name : String) (rest : List String),
       (∀ a n, fetch a n = .group ⟨.pending, some (H a n)⟩) →
       WaitForNodeGroups fetch cond (name :: rest) = (240, .timeout (H 240 name))) ∧
    (∀ (fetch : Nat → CallResult (List NatState)) (S : Nat → List NatState)
       (cond : NATCondition),
       (∀ a, fetch a = .ok (S a)) →
       (∀ a, (S a).all (natStateMet cond) = false) →
       WaitForNATGateways fetch cond = (20, .timeout)) ∧
    (∀ (fetch : Nat → ClusterFetch) (clusterName : String) (cond : ClusterCondition),
       clusterName ≠ "" →
       (∀ a, fetch a = .status .pending) →
       WaitForCluster fetch clusterName cond = (60, .timeout)) := by
  refine ⟨?_, ?_, ?_⟩
  · intro fetch H cond name rest hf
    have := waitForNodeGroupsAux_pending fetch H cond name rest hf 239 1 []
    simpa [WaitForNodeGroups, NodeGroupCheckMaxCount] using this
  · intro fetch S cond hf hmet
    have := waitForNATGatewaysAux_pending fetch S cond hf hmet 20 1
    simpa [WaitForNATGateways, NATGatewayCheckMaxCount] using this
  · intro fetch clusterName cond hname hf
    have := waitForClusterAux_pending fetch cond hf 60 1
    simp [WaitForCluster, ClusterCheckMaxCount, hname, this]

/-- Witness for C5: concrete always-pending stubs reach each ceiling
    exactly. -/
theorem wait_ceilings_witness :
    WaitForNodeGroups (fun _ _ => .group ⟨.pending, some ["AsgInstanceLaunchFailures"]⟩)
        .created ["eks-cluster-private-node-group"] =
      (240, .timeout ["AsgInstanceLaunchFailures"]) ∧
    WaitForNATGateways (fun _ => .ok [.pending]) .created = (20, .timeout) ∧
    WaitForCluster (fun _ => .status .pending) "eks-cluster" .created = (60, .timeout) :=
  ⟨wait_ceilings.1 (fun _ _ => .group ⟨.pending, some ["AsgInstanceLaunchFailures"]⟩)
      (fun _ _ => ["AsgInstanceLaunchFailures"]) .created
      "eks-cluster-private-node-group" [] (fun _ _ => rfl),
   wait_ceilings.2.1 (fun _ => .ok [.pending]) (fun _ => [.pending]) .created
      (fun _ => rfl) (fun _ => rfl),
   wait_ceilings.2.2 (fun _ => .status .pending) "eks-cluster" .created
      (by decide) (fun _ => rfl)⟩

/-- Provider behaviour that answers every call with success or NotFound
    (never another API error) — in particular the behaviour seen when the
    identifier was already deleted, so that a repeated deletion is answered
    NotFound. -/
def Benign (o : String → Resp) : Prop := ∀ id, o id = .ok ∨ o id = .notFound

/-- Benign provider behaviour for the two-argument detach oracle. -/
def Benign2 (d : String → String → Resp) : Prop :=
  ∀ p r, d p r = .ok ∨ d p r = .notFound

theorem deleteSubnetsLoop_benign (o : String → Resp) (h : Benign o) :
    ∀ ids, (deleteSubnetsLoop o ids).2 = none := by
  intro ids
  induction ids with
  | nil => rfl
  | cons id rest ih =>
      rcases h id with hid | hid <;> simp [deleteSubnetsLoop, hid, ih]

theorem deleteElasticIPsLoop_benign (o : String → Resp) (h : Benign o) :
    ∀ ids, (deleteElasticIPsLoop o ids).2 = none := by
  intro ids
  induction ids with
  | nil => rfl
  | cons id rest ih =>
      rcases h id with hid | hid <;> simp [deleteElasticIPsLoop, hid, ih]

theorem deleteRouteTablesLoop_benign (o : String → Resp) (h : Benign o) :
    ∀ ids, (deleteRouteTablesLoop o ids).2 = none := by
  intro ids
  induction ids with
  | nil => rfl
  | cons id rest ih =>
      rcases h id with hid | hid <;> simp [deleteRouteTablesLoop, hid, ih]

theorem deleteNodeGroupsLoop_benign (o : String → Resp) (h : Benign o) :
    ∀ ids, (deleteNodeGroupsLoop o ids).2 = none := by
  intro ids
  induction ids with
  | nil => rfl
  | cons id rest ih =>
      rcases h id with hid | hid <;> simp [deleteNodeGroupsLoop, hid, ih]

theorem deletePoliciesLoop_benign (o : String → Resp) (h : Benign o) :
    ∀ ids, (deletePoliciesLoop o ids).2 = none := by
  intro ids
  induction ids with
  | nil => rfl
  | cons id rest ih =>
      rcases h id with hid | hid <;> simp [deletePoliciesLoop, hid, ih]

theorem deleteNATGatewaysLoop_benign (o : String → Resp) (h : Benign o) :
    ∀ ids, (deleteNATGatewaysLoop o ids).2 = none := by
  intro ids
  induction ids with
  | nil => rfl
  | cons id rest ih =>
      rcases h id with hid | hid <;> simp [deleteNATGatewaysLoop, hid, ih]

theorem detachPoliciesLoop_benign (d : String → String → Resp) (h : Benign2 d)
    (roleName : String) :
    ∀ ps, (detachPoliciesLoop d roleName ps).2 = .done ∨
          (detachPoliciesLoop d roleName ps).2 = .earlyOk := by
  intro ps
  induction ps with
  | nil => exact .inl rfl
  | cons p rest ih =>
      rcases h p roleName with hp | hp
      · rcases ih with ih | ih <;> simp [detachPoliciesLoop, hp, ih]
      · simp [detachPoliciesLoop, hp]

theorem deleteRolesLoop_benign (d : String → String → Resp) (o : String → Resp)
    (hd : Benign2 d) (ho : Benign o) :
    ∀ roles, (deleteRolesLoop d o roles).2 = none := by
  intro roles
  induction roles with
  | nil => rfl
  | cons role rest ih =>
      rcases detachPoliciesLoop_benign d hd role.RoleName role.RolePolicyARNs with hdet | hdet
      · rcases ho role.RoleName with hr | hr <;>
          cases hdl : detachPoliciesLoop d role.RoleName role.RolePolicyARNs with
          | mk calls out =>
              rw [hdl] at hdet
              simp at hdet
              subst hdet
              simp [deleteRolesLoop, hdl, hr, ih]
      · cases hdl : detachPoliciesLoop d role.RoleName role.RolePolicyARNs with
        | mk calls out =>
            rw [hdl] at hdet
            simp at hdet
            subst hdet
            simp [deleteRolesLoop, hdl]

/-- C3.  Idempotent delete: every delete adapter returns success on an
    empty identifier (or empty identifier list), and returns success on
    every input against a provider that answers each call with success or
    with its NotFound error class — in particular when the provider reports
    NotFound for the given identifier, and hence on both calls when the
    same identifier is deleted twice (the second deletion being answered
    NotFound). -/
theorem delete_adapters_idempotent :
    ((∀ (o : String → Resp), (DeleteSubnets o []).2 = none) ∧
     (∀ (o : String → Resp), (DeleteElasticIPs o []).2 = none) ∧
     (∀ (o : String → Resp), (DeleteRouteTables o [] "").2 = none) ∧
     (∀ (o : String → Resp) (names : List String), (DeleteNodeGroups o "" names).2 = none) ∧
     (∀ (o : String → Resp) (cl : String), (DeleteNodeGroups o cl []).2 = none) ∧
     (∀ (o : String → Resp), (DeletePolicies o []).2 = none) ∧
     (∀ (d : String → String → Resp) (o : String → Resp), (DeleteRoles d o []).2 = none) ∧
     (∀ (o : String → Resp), (DeleteCluster o "").2 = none) ∧
     (∀ (o : String → Resp), (DeleteOIDCProvider o "").2 = none) ∧
     (∀ (d o : String → Resp), (DeleteInternetGateway d o "").2 = none) ∧
     (∀ (des : CallResult (List String)) (o : String → Resp),
        (DeleteNATGateways des o "").2 = none)) ∧
    ((∀ (o : String → Resp), Benign o → ∀ ids, (DeleteSubnets o ids).2 = none) ∧
     (∀ (o : String → Resp), Benign o → ∀ ids, (DeleteElasticIPs o ids).2 = none) ∧
     (∀ (o : String → Resp), Benign o → ∀ priv pub, (DeleteRouteTables o priv pub).2 = none) ∧
     (∀ (o : String → Resp), Benign o → ∀ cl names, (DeleteNodeGroups o cl names).2 = none) ∧
     (∀ (o : String → Resp), Benign o → ∀ arns, (DeletePolicies o arns).2 = none) ∧
     (∀ (d : String → String → Resp) (o : String → Resp), Benign2 d → Benign o →
        ∀ roles, (DeleteRoles d o roles).2 = none) ∧
     (∀ (o : String → Resp), Benign o → ∀ name, (DeleteCluster o name).2 = none) ∧
     (∀ (o : String → Resp), Benign o → ∀ arn, (DeleteOIDCProvider o arn).2 = none) ∧
     (∀ (d o : String → Resp), Benign d → Benign o →
        ∀ id, (DeleteInternetGateway d o id).2 = none) ∧
     (∀ (natIDs : List String) (o : String → Resp), Benign o →
        ∀ vpcID, (DeleteNATGateways (.ok natIDs) o vpcID).2 = none)) := by
  constructor
  · refine ⟨?_, ?_, ?_, ?_, ?_, ?_, ?_, ?_, ?_, ?_, ?_⟩ <;>
      intros <;> simp [DeleteSubnets, DeleteElasticIPs, DeleteRouteTables,
        DeleteNodeGroups, DeletePolicies, DeleteRoles, DeleteCluster,
        DeleteOIDCProvider, DeleteInternetGateway, DeleteNATGateways]
  · refine ⟨?_, ?_, ?_, ?_, ?_, ?_, ?_, ?_, ?_, ?_⟩
    · intro o h ids
      rcases ids with _ | ⟨id, rest⟩
      · rfl
      · simpa [DeleteSubnets] using deleteSubnetsLoop_benign o h (id :: rest)
    · intro o h ids
      rcases ids with _ | ⟨id, rest⟩
      · rfl
      · simpa [DeleteElasticIPs] using deleteElasticIPsLoop_benign o h (id :: rest)
    · intro o h priv pub
      by_cases hempty : priv.isEmpty = true ∧ pub = ""
      · simp [DeleteRouteTables, hempty.1, hempty.2]
      · simp only [DeleteRouteTables]
        rw [if_neg (by simpa using hempty)]
        split <;> exact deleteRouteTablesLoop_benign o h _
    · intro o h cl names
      by_cases hempty : cl = "" ∨ names.isEmpty = true
      · rcases hempty with hc | hn
        · simp [DeleteNodeGroups, hc]
        · simp [DeleteNodeGroups, List.isEmpty_iff.mp hn]
      · simp only [DeleteNodeGroups]
        rw [if_neg (by simpa using hempty)]
        exact deleteNodeGroupsLoop_benign o h names
    · intro o h arns
      rcases arns with _ | ⟨arn, rest⟩
      · rfl
      · simpa [DeletePolicies] using deletePoliciesLoop_benign o h (arn :: rest)
    · intro d o hd ho roles
      rcases roles with _ | ⟨role, rest⟩
      · rfl
      · simpa [DeleteRoles] using deleteRolesLoop_benign d o hd ho (role :: rest)
    · intro o h name
      by_cases hn : name = ""
      · simp [DeleteCluster, hn]
      · rcases h name with hr | hr <;> simp [DeleteCluster, hn, hr]
    · intro o h arn
      by_cases hn : arn = ""
      · simp [DeleteOIDCProvider, hn]
      · rcases h arn with hr | hr <;> simp [DeleteOIDCProvider, hn, hr]
    · intro d o hd ho id
      by_cases hn : id = ""
      · simp [DeleteInternetGateway, hn]
      · rcases hd id with h1 | h1
        · rcases ho id with h2 | h2 <;> simp [DeleteInternetGateway, hn, h1, h2]
        · simp [DeleteInternetGateway, hn, h1]
    · intro natIDs o h vpcID
      by_cases hn : vpcID = ""
      · simp [DeleteNATGateways, hn]
      · simpa [DeleteNATGateways, hn] using deleteNATGatewaysLoop_benign o h natIDs

/-- Witness for C3: the all-NotFound oracle (the provider behaviour on a
    second deletion of the same identifiers) makes every delete adapter
    succeed on concrete identifiers, and each adapter succeeds on the empty
    identifier. -/
theorem delete_adapters_idempotent_witness :
    (DeleteSubnets (fun _ => .notFound) ["subnet-private-a"]).2 = none ∧
    (DeleteElasticIPs (fun _ => .notFound) ["eipalloc-a"]).2 = none ∧
    (DeleteRouteTables (fun _ => .notFound) ["rtb-private-a"] "rtb-public").2 = none ∧
    (DeleteNodeGroups (fun _ => .notFound) "eks-cluster" ["ng-1"]).2 = none ∧
    (DeletePolicies (fun _ => .notFound) ["arn:p"]).2 = none ∧
    (DeleteRoles (fun _ _ => .notFound) (fun _ => .notFound)
        [⟨"eks-cluster-role", "arn:r", ["arn:p"]⟩]).2 = none ∧
    (DeleteCluster (fun _ => .notFound) "eks-cluster").2 = none ∧
    (DeleteOIDCProvider (fun _ => .notFound) "arn:oidc").2 = none ∧
    (DeleteInternetGateway (fun _ => .notFound) (fun _ => .notFound) "igw-1").2 = none ∧
    (DeleteNATGateways (.ok ["nat-a"]) (fun _ => .notFound) "vpc-1").2 = none ∧
    (DeleteSubnets (fun _ => .notFound) []).2 = none := by
  have hB : Benign (fun _ => Resp.notFound) := fun _ => .inr rfl
  have hB2 : Benign2 (fun _ _ => Resp.notFound) := fun _ _ => .inr rfl
  refine ⟨delete_adapters_idempotent.2.1 _ hB _,
          delete_adapters_idempotent.2.2.1 _ hB _,
          delete_adapters_idempotent.2.2.2.1 _ hB _ _,
          delete_adapters_idempotent.2.2.2.2.1 _ hB _ _,
          delete_adapters_idempotent.2.2.2.2.2.1 _ hB _,
          delete_adapters_idempotent.2.2.2.2.2.2.1 _ _ hB2 hB _,
          delete_adapters_idempotent.2.2.2.2.2.2.2.1 _ hB _,
          delete_adapters_idempotent.2.2.2.2.2.2.2.2.1 _ hB _,
          delete_adapters_idempotent.2.2.2.2.2.2.2.2.2.1 _ _ hB hB _,
          delete_adapters_idempotent.2.2.2.2.2.2.2.2.2.2 _ _ hB _,
          delete_adapters_idempotent.1.1 _⟩

theorem deleteSubnetsLoop_notfound (o : String → Resp) :
    ∀ (pre : List String) (x : String) (post : List String),
      (∀ y ∈ pre, o y = .ok) → o x = .notFound →
      deleteSubnetsLoop o (pre ++ x :: post) = (pre ++ [x], none) := by
  intro pre
  induction pre with
  | nil => intro x post _ hx; simp [deleteSubnetsLoop, hx]
  | cons y pre ih =>
      intro x post hpre hx
      have hy : o y = .ok := hpre y (by simp)
      have := ih x post (fun z hz => hpre z (by simp [hz])) hx
      simp [deleteSubnetsLoop, hy, this]

theorem deleteElasticIPsLoop_notfound (o : String → Resp) :
    ∀ (pre : List String) (x : String) (post : List String),
      (∀ y ∈ pre, o y = .ok) → o x = .notFound →
      deleteElasticIPsLoop o (pre ++ x :: post) = (pre ++ [x], none) := by
  intro pre
  induction pre with
  | nil => intro x post _ hx; simp [deleteElasticIPsLoop, hx]
  | cons y pre ih =>
      intro x post hpre hx
      have hy : o y = .ok := hpre y (by simp)
      have := ih x post (fun z hz => hpre z (by simp [hz])) hx
      simp [deleteElasticIPsLoop, hy, this]

theorem deleteRouteTablesLoop_notfound (o : String → Resp) :
    ∀ (pre : List String) (x : String) (post : List String),
      (∀ y ∈ pre, o y = .ok) → o x = .notFound →
      deleteRouteTablesLoop o (pre ++ x :: post) = (pre ++ [x], none) := by
  intro pre
  induction pre with
  | nil => intro x post _ hx; simp [deleteRouteTablesLoop, hx]
  | cons y pre ih =>
      intro x post hpre hx
      have hy : o y = .ok := hpre y (by simp)
      have := ih x post (fun z hz => hpre z (by simp [hz])) hx
      simp [deleteRouteTablesLoop, hy, this]

theorem deleteNodeGroupsLoop_notfound (o : String → Resp) :
    ∀ (pre : List String) (x : String) (post : List String),
      (∀ y ∈ pre, o y = .ok) → o x = .notFound →
      deleteNodeGroupsLoop o (pre ++ x :: post) = (pre ++ [x], none) := by
  intro pre
  induction pre with
  | nil => intro x post _ hx; simp [deleteNodeGroupsLoop, hx]
  | cons y pre ih =>
      intro x post hpre hx
      have hy : o y = .ok := hpre y (by simp)
      have := ih x post (fun z hz => hpre z (by simp [hz])) hx
      simp [deleteNodeGroupsLoop, hy, this]

/-- Calls DeleteRoles issues for a list of roles it tears down completely:
    every recorded policy detached, then the role deleted. -/
def rolesCalls (rs : List RoleInventory) : List IAMCall :=
  rs.flatMap (fun q =>
    q.RolePolicyARNs.map (fun a => IAMCall.detachPolicy a q.RoleName)
      ++ [IAMCall.deleteRole q.RoleName])

theorem detachPoliciesLoop_allok (d : String → String → Resp) (roleName : String) :
    ∀ ps, (∀ a ∈ ps, d a roleName = .ok) →
      detachPoliciesLoop d roleName ps =
        (ps.map (fun a => IAMCall.detachPolicy a roleName), .done) := by
  intro ps
  induction ps with
  | nil => intro _; rfl
  | cons p rest ih =>
      intro h
      have hp : d p roleName = .ok := h p (by simp)
      have := ih (fun a ha => h a (by simp [ha]))
      simp [detachPoliciesLoop, hp, this]

theorem deleteRolesLoop_notfound (d : String → String → Resp) (del : String → Resp) :
    ∀ (pre : List RoleInventory) (r : RoleInventory) (post : List RoleInventory)
      (p : String) (ps : List String),
      (∀ q ∈ pre, (∀ a ∈ q.RolePolicyARNs, d a q.RoleName = .ok) ∧ del q.RoleName = .ok) →
      r.RolePolicyARNs = p :: ps → d p r.RoleName = .notFound →
      deleteRolesLoop d del (pre ++ r :: post) =
        (rolesCalls pre ++ [IAMCall.detachPolicy p r.RoleName], none) := by
  intro pre
  induction pre with
  | nil =>
      intro r post p ps _ hr hx
      simp [deleteRolesLoop, hr, detachPoliciesLoop, hx, rolesCalls]
  | cons q pre ih =>
      intro r post p ps hpre hr hx
      have hq := hpre q (by simp)
      have hdet := detachPoliciesLoop_allok d q.RoleName q.RolePolicyARNs hq.1
      have := ih r post p ps (fun z hz => hpre z (by simp [hz])) hr hx
      simp [deleteRolesLoop, hdet, hq.2, this, rolesCalls, List.flatMap_cons]

/-- C8.  In each collection-valued delete adapter, a provider NotFound on
    one element of the list makes the whole call return success at once:
    the elements before it are deleted, the NotFound element is the last
    call issued, and no call is issued for any later element (for
    DeleteRouteTables not even the public route table, for DeleteRoles not
    even the remaining policy detachments and role deletions). -/
theorem notfound_short_circuits_collection_deletes :
    (∀ (o : String → Resp) (pre : List String) (x : String) (post : List String),
       (∀ y ∈ pre, o y = .ok) → o x = .notFound →
       DeleteSubnets o (pre ++ x :: post) = (pre ++ [x], none)) ∧
    (∀ (o : String → Resp) (pre : List String) (x : String) (post : List String),
       (∀ y ∈ pre, o y = .ok) → o x = .notFound →
       DeleteElasticIPs o (pre ++ x :: post) = (pre ++ [x], none)) ∧
    (∀ (o : String → Resp) (pre : List String) (x : String) (post : List String)
       (pub : String),
       (∀ y ∈ pre, o y = .ok) → o x = .notFound → pub ≠ "" →
       DeleteRouteTables o (pre ++ x :: post) pub = (pre ++ [x], none)) ∧
    (∀ (o : String → Resp) (cl : String) (pre : List String) (x : String) (post : List String),
       cl ≠ "" → (∀ y ∈ pre, o y = .ok) → o x = .notFound →
       DeleteNodeGroups o cl (pre ++ x :: post) = (pre ++ [x], none)) ∧
    (∀ (d : String → String → Resp) (del : String → Resp)
       (pre : List RoleInventory) (r : RoleInventory) (post : List RoleInventory)
       (p : String) (ps : List String),
       (∀ q ∈ pre, (∀ a ∈ q.RolePolicyARNs, d a q.RoleName = .ok) ∧ del q.RoleName = .ok) →
       r.RolePolicyARNs = p :: ps → d p r.RoleName = .notFound →
       DeleteRoles d del (pre ++ r :: post) =
         (rolesCalls pre ++ [IAMCall.detachPolicy p r.RoleName], none)) := by
  refine ⟨?_, ?_, ?_, ?_, ?_⟩
  · intro o pre x post hpre hx
    have : (pre ++ x :: post).isEmpty = false := by
      cases pre <;> simp
    simp only [DeleteSubnets, this, Bool.false_eq_true, if_false]
    exact deleteSubnetsLoop_notfound o pre x post hpre hx
  · intro o pre x post hpre hx
    have : (pre ++ x :: post).isEmpty = false := by
      cases pre <;> simp
    simp only [DeleteElasticIPs, this, Bool.false_eq_true, if_false]
    exact deleteElasticIPsLoop_notfound o pre x post hpre hx
  · intro o pre x post pub hpre hx hpub
    have hall : (pre ++ x :: post) ++ [pub] = pre ++ x :: (post ++ [pub]) := by simp
    simp only [DeleteRouteTables]
    rw [if_neg (by simp [hpub]), if_neg hpub, hall]
    exact deleteRouteTablesLoop_notfound o pre x (post ++ [pub]) hpre hx
  · intro o cl pre x post hcl hpre hx
    have : (pre ++ x :: post).isEmpty = false := by
      cases pre <;> simp
    simp only [DeleteNodeGroups]
    rw [if_neg (by simp [hcl, this])]
    exact deleteNodeGroupsLoop_notfound o pre x post hpre hx
  · intro d del pre r post p ps hpre hr hx
    have : (pre ++ r :: post).isEmpty = false := by
      cases pre <;> simp
    simp only [DeleteRoles, this, Bool.false_eq_true, if_false]
    exact deleteRolesLoop_notfound d del pre r post p ps hpre hr hx

/-- Witness for C8: oracles that would reject the element after the
    NotFound one show that the later elements are never attempted. -/
theorem notfound_short_circuits_witness :
    DeleteSubnets
        (fun id => if id = "s1" then .ok else if id = "s2" then .notFound else .apiErr "boom")
        ["s1", "s2", "s3"] = (["s1", "s2"], none) ∧
    DeleteElasticIPs
        (fun id => if id = "e1" then .ok else if id = "e2" then .notFound else .apiErr "boom")
        ["e1", "e2", "e3"] = (["e1", "e2"], none) ∧
    DeleteRouteTables
        (fun id => if id = "r1" then .ok else if id = "r2" then .notFound else .apiErr "boom")
        ["r1", "r2", "r3"] "rtb-public" = (["r1", "r2"], none) ∧
    DeleteNodeGroups
        (fun id => if id = "n1" then .ok else if id = "n2" then .notFound else .apiErr "boom")
        "eks-cluster" ["n1", "n2", "n3"] = (["n1", "n2"], none) ∧
    DeleteRoles
        (fun a _ => if a = "p1" then .ok else if a = "p2" then .notFound else .apiErr "boom")
        (fun _ => .ok)
        [⟨"role-1", "arn:r1", ["p1"]⟩, ⟨"role-2", "arn:r2", ["p2", "p3"]⟩,
         ⟨"role-3", "arn:r3", ["p4"]⟩] =
      ([.detachPolicy "p1" "role-1", .deleteRole "role-1", .detachPolicy "p2" "role-2"], none) := by
  refine ⟨?_, ?_, ?_, ?_, ?_⟩
  · exact notfound_short_circuits_collection_deletes.1 _ ["s1"] "s2" ["s3"]
      (by intro y hy; simp at hy; simp [hy]) (by simp)
  · exact notfound_short_circuits_collection_deletes.2.1 _ ["e1"] "e2" ["e3"]
      (by intro y hy; simp at hy; simp [hy]) (by simp)
  · exact notfound_short_circuits_collection_deletes.2.2.1 _ ["r1"] "r2" ["r3"] "rtb-public"
      (by intro y hy; simp at hy; simp [hy]) (by simp) (by simp)
  · exact notfound_short_circuits_collection_deletes.2.2.2.1 _ "eks-cluster" ["n1"] "n2" ["n3"]
      (by simp) (by intro y hy; simp at hy; simp [hy]) (by simp)
  · have := notfound_short_circuits_collection_deletes.2.2.2.2
      (fun a _ => if a = "p1" then .ok else if a = "p2" then .notFound else .apiErr "boom")
      (fun _ => .ok)
      [⟨"role-1", "arn:r1", ["p1"]⟩] ⟨"role-2", "arn:r2", ["p2", "p3"]⟩
      [⟨"role-3", "arn:r3", ["p4"]⟩] "p2" ["p3"]
      (by intro q hq; simp at hq; subst hq; refine ⟨?_, rfl⟩; intro a ha; simp at ha; simp [ha])
      rfl (by simp)
    simpa [rolesCalls] using this
